import Mathlib

/-! Shallow embedding of the libveezi client library: the entity model, the
per-type cache state, a transport oracle, and the fetch orchestrator
operations, translated from the Rust source (src/client.rs, src/session.rs,
src/film.rs, src/package.rs, src/screen.rs, src/attr.rs, src/site.rs,
src/error.rs).  Stateful operations are modelled by explicit state passing:
every operation takes the transport oracle and the current cache state and
returns the result, the new cache state, and the number of transport calls
it performed.  Cache entry expiry (TTL) and capacity eviction are external
events that remove entries between operations; the theorems below concern
runs with no expiry in between, exactly as the spec sentences they settle
state. -/

namespace Veezi

/-- Identifier of a session (transparent wrapper of a u32 in the source). -/
abbrev SessionId := Nat

/-- Identifier of a film (transparent wrapper of a String in the source). -/
abbrev FilmId := String

/-- Identifier of a film package (transparent wrapper of a u32). -/
abbrev FilmPackageId := Nat

/-- Identifier of a screen (transparent wrapper of a u32). -/
abbrev ScreenId := Nat

/-- Identifier of an attribute (transparent wrapper of a String). -/
abbrev AttributeId := String

/-- Model of an f32 value by its bit pattern.  The source never computes
with the one f32 field (PackageFilm.split_percent); it only stores it and
compares whole records, so the bit pattern is a faithful model. -/
structure Float32 where
  bits : Nat
deriving DecidableEq, Repr

/-- Model of a chrono NaiveDateTime: the date part as a day number and the
time of day in seconds.  chrono orders datetimes by date first, then time
of day, which is the lexicographic order below. -/
structure NaiveDateTime where
  day : Int
  secOfDay : Nat
deriving DecidableEq, Repr

/-- Lexicographic order on datetimes, matching the chrono Ord instance. -/
def NaiveDateTime.le (a b : NaiveDateTime) : Bool :=
  decide (a.day < b.day) || (decide (a.day = b.day) && decide (a.secOfDay ≤ b.secOfDay))

/-- Strict lexicographic order on datetimes, matching the chrono Ord instance. -/
def NaiveDateTime.lt (a b : NaiveDateTime) : Bool :=
  decide (a.day < b.day) || (decide (a.day = b.day) && decide (a.secOfDay < b.secOfDay))

/-- Model of a chrono NaiveDate: the day number. -/
abbrev NaiveDate := Int

/-- Model of NaiveDate::and_hms_opt(0, 0, 0), which always succeeds:
midnight at the start of the given date. -/
def NaiveDate.and_hms000 (d : NaiveDate) : NaiveDateTime := ⟨d, 0⟩

/-- The seating type for a particular session (session.rs). -/
inductive Seating where
  | Allocated
  | Select
  | Open
deriving DecidableEq, Repr

/-- The show type for a particular session (session.rs). -/
inductive ShowType where
  | Private
  | Public
deriving DecidableEq, Repr

/-- The status of a particular session (session.rs). -/
inductive SessionStatus where
  | Open
  | Closed
  | Planned
deriving DecidableEq, Repr

/-- The sales channels via which tickets for a session can be sold. -/
structure SalesVia where
  kiosk : Bool
  pos : Bool
  www : Bool
  mx : Bool
  rsp : Bool
deriving DecidableEq, Repr

/-- The status of a particular film (film.rs). -/
inductive FilmStatus where
  | Active
  | Inactive
  | Deleted
deriving DecidableEq, Repr

/-- The format of a particular film (film.rs). -/
inductive FilmFormat where
  | Film2D
  | Digital2D
  | Digital3D
  | Digital3DHFR
  | NotAFilm
deriving DecidableEq, Repr

/-- A person associated with a film (film.rs). -/
structure Person where
  id : String
  first_name : String
  last_name : String
  role : String
deriving DecidableEq, Repr

/-- A particular screening session of a film (session.rs, all fields). -/
structure Session where
  id : SessionId
  film_id : FilmId
  film_package_id : Option FilmPackageId
  title : String
  screen_id : ScreenId
  seating : Seating
  are_complimentaries_allowed : Bool
  show_type : ShowType
  sales_via : SalesVia
  status : SessionStatus
  pre_show_start_time : NaiveDateTime
  sales_cut_off_time : NaiveDateTime
  feature_start_time : NaiveDateTime
  feature_end_time : NaiveDateTime
  cleanup_end_time : NaiveDateTime
  tickets_sold_out : Bool
  few_tickets_left : Bool
  seats_available : Nat
  seats_held : Nat
  seats_house : Nat
  seats_sold : Nat
  film_format : FilmFormat
  price_card_name : String
  attributes : List AttributeId
  audio_language : Option String
deriving DecidableEq, Repr

/-- A particular film in the Veezi system (film.rs, all fields). -/
structure Film where
  id : FilmId
  title : String
  short_name : String
  synopsis : Option String
  genre : String
  signage_text : String
  distributor : String
  opening_date : NaiveDateTime
  rating : Option String
  status : FilmStatus
  content : Option String
  duration : Nat
  display_sequence : Nat
  national_code : Option String
  format : FilmFormat
  is_restricted : Bool
  people : List Person
  audio_language : Option String
  government_film_title : Option String
  film_poster_url : Option String
  film_poster_thumbnail_url : String
  backdrop_image_url : Option String
  film_trailer_url : Option String
deriving DecidableEq, Repr

/-- A particular film within a film package (package.rs). -/
structure PackageFilm where
  film_id : FilmId
  title : String
  split_percent : Float32
  trailer_duration : Nat
  clean_up_duration : Nat
  order : Nat
deriving DecidableEq, Repr

/-- A package of films in the Veezi system (package.rs). -/
structure FilmPackage where
  id : FilmPackageId
  title : String
  status : FilmStatus
  films : List PackageFilm
deriving DecidableEq, Repr

/-- A particular screen in the Veezi system (screen.rs). -/
structure Screen where
  id : ScreenId
  name : String
  screen_number : String
  has_custom_layout : Bool
  total_seats : Nat
  house_seats : Nat
deriving DecidableEq, Repr

/-- An attribute that can be associated with sessions (attr.rs). -/
structure Attribute where
  id : AttributeId
  description : String
  short_name : String
  font_color : String
  background_color : String
  show_on_sessions_with_no_comps : Bool
deriving DecidableEq, Repr

/-- Information about the current Veezi site (site.rs). -/
structure Site where
  name : String
  short_name : String
  legal_name : String
  national_code : Option String
  address_1 : Option String
  address_2 : Option String
  address_3 : Option String
  post_code : Option String
  phone_1 : Option String
  phone_2 : Option String
  fax : Option String
  sales_tax_registration : Option String
  ticket_message_1 : Option String
  ticket_message_2 : Option String
  receipt_message_1 : Option String
  receipt_message_2 : Option String
  receipt_message_3 : Option String
  receipt_message_4 : Option String
  receipt_message_5 : Option String
  receipt_message_6 : Option String
  time_zone_identifier : String
  country : String
  screens : List Nat
deriving DecidableEq, Repr

/-- Abstract payload of a reqwest HTTP error (error.rs LibVeeziError::Http).
The library never inspects it, only propagates it, so a tag suffices. -/
structure HttpErrorInfo where
  code : Nat
deriving DecidableEq, Repr

/-- Abstract payload of a url::ParseError (error.rs LibVeeziError::UrlParse). -/
structure UrlParseErrorInfo where
  code : Nat
deriving DecidableEq, Repr

/-- The list of errors that can occur when using the library (error.rs). -/
inductive LibVeeziError where
  | Http : HttpErrorInfo → LibVeeziError
  | UrlParse : UrlParseErrorInfo → LibVeeziError
deriving DecidableEq, Repr

/-- A result type for the library (error.rs ApiResult). -/
abbrev ApiResult (α : Type) := Except LibVeeziError α

/-- Decidable equality of Except values, used so that concrete fetch
results can be evaluated by the decide tactic. -/
def Except.decEqImpl {ε α : Type} [DecidableEq ε] [DecidableEq α] :
    (x y : Except ε α) → Decidable (x = y)
  | .error a, .error b =>
    if h : a = b then isTrue (by rw [h])
    else isFalse (fun hc => h (by cases hc; rfl))
  | .error _, .ok _ => isFalse (fun hc => Except.noConfusion hc)
  | .ok _, .error _ => isFalse (fun hc => Except.noConfusion hc)
  | .ok a, .ok b =>
    if h : a = b then isTrue (by rw [h])
    else isFalse (fun hc => h (by cases hc; rfl))

instance {ε α : Type} [DecidableEq ε] [DecidableEq α] : DecidableEq (Except ε α) :=
  Except.decEqImpl

/-- A list of sessions with helper methods (session.rs SessionList). -/
structure SessionList where
  sessions : List Session
deriving DecidableEq, Repr

/-- Lookup in a cache modelled as an association list (moka Cache::get). -/
def mapGet {κ α : Type} [DecidableEq κ] (k : κ) : List (κ × α) → Option α
  | [] => none
  | (k', v) :: rest => if k' = k then some v else mapGet k rest

/-- Removal from a cache modelled as an association list (moka
Cache::invalidate). -/
def mapErase {κ α : Type} [DecidableEq κ] (k : κ) : List (κ × α) → List (κ × α)
  | [] => []
  | (k', v) :: rest => if k' = k then mapErase k rest else (k', v) :: mapErase k rest

/-- Insertion into a cache modelled as an association list, overwriting any
entry under the same key (moka Cache::insert). -/
def mapInsert {κ α : Type} [DecidableEq κ] (k : κ) (v : α) (m : List (κ × α)) :
    List (κ × α) :=
  (k, v) :: mapErase k m

/-- The transport oracle: the observable behaviour of Client::get_json at
each endpoint the client uses.  Every failure mode of get_json (URL join
failure, network error, non-success status, malformed JSON) shows up as an
error value of the oracle. -/
structure Transport where
  session_list : ApiResult (List Session)
  web_session_list : ApiResult (List Session)
  session_by_id : SessionId → ApiResult Session
  film_list : ApiResult (List Film)
  film_by_id : FilmId → ApiResult Film
  film_package_list : ApiResult (List FilmPackage)
  film_package_by_id : FilmPackageId → ApiResult FilmPackage
  screen_list : ApiResult (List Screen)
  screen_by_id : ScreenId → ApiResult Screen
  site : ApiResult Site
  attribute_list : ApiResult (List Attribute)
  attribute_by_id : AttributeId → ApiResult Attribute

/-- The cache state of a Client (client.rs Client fields).  An item cache
that is not configured is none; a configured one is a key-value map.  A
list cache that is not configured is none; a configured one is a single
slot that is either empty or holds the cached list. -/
structure ClientState where
  session_cache : Option (List (SessionId × Session))
  session_list_cache : Option (Option SessionList)
  web_session_list_cache : Option (Option SessionList)
  film_cache : Option (List (FilmId × Film))
  film_list_cache : Option (Option (List Film))
  film_package_cache : Option (List (FilmPackageId × FilmPackage))
  film_package_list_cache : Option (Option (List FilmPackage))
  screen_cache : Option (List (ScreenId × Screen))
  screen_list_cache : Option (Option (List Screen))
  attribute_cache : Option (List (AttributeId × Attribute))
  attribute_list_cache : Option (Option (List Attribute))
  site_cache : Option (Option Site)
deriving DecidableEq, Repr

/-- The outcome of one client operation: the returned value or error, the
cache state afterwards, and how many transport calls were made. -/
structure FetchResult (α : Type) where
  res : ApiResult α
  state : ClientState
  calls : Nat
deriving DecidableEq, Repr

/-- Client::list_sessions (client.rs lines 264 to 291). -/
def Client.list_sessions (t : Transport) (s : ClientState) : FetchResult SessionList :=
  match s.session_list_cache with
  | none =>
    match t.session_list with
    | .ok raw => ⟨.ok ⟨raw⟩, s, 1⟩
    | .error e => ⟨.error e, s, 1⟩
  | some slot =>
    match slot with
    | some cached => ⟨.ok cached, s, 0⟩
    | none =>
      match t.session_list with
      | .error e => ⟨.error e, s, 1⟩
      | .ok raw =>
        let sessions : SessionList := ⟨raw⟩
        let s1 := { s with session_list_cache := some (some sessions) }
        let s2 :=
          match s1.session_cache with
          | none => s1
          | some item =>
            { s1 with
                session_cache := some (raw.foldl (fun m sess => mapInsert sess.id sess m) item) }
        ⟨.ok sessions, s2, 1⟩

/-- Client::invalidate_cached_session (client.rs lines 295 to 302). -/
def Client.invalidate_cached_session (s : ClientState) (id : SessionId) : ClientState :=
  let s1 :=
    match s.session_cache with
    | none => s
    | some cache => { s with session_cache := some (mapErase id cache) }
  match s1.session_list_cache with
  | none => s1
  | some _ => { s1 with session_list_cache := some none }

/-- Client::invalidate_all_cached_sessions (client.rs lines 304 to 311). -/
def Client.invalidate_all_cached_sessions (s : ClientState) : ClientState :=
  let s1 :=
    match s.session_cache with
    | none => s
    | some _ => { s with session_cache := some [] }
  match s1.session_list_cache with
  | none => s1
  | some _ => { s1 with session_list_cache := some none }

/-- Client::list_web_sessions (client.rs lines 325 to 354). -/
def Client.list_web_sessions (t : Transport) (s : ClientState) : FetchResult SessionList :=
  match s.web_session_list_cache with
  | none =>
    match t.web_session_list with
    | .ok raw => ⟨.ok ⟨raw⟩, s, 1⟩
    | .error e => ⟨.error e, s, 1⟩
  | some slot =>
    match slot with
    | some cached => ⟨.ok cached, s, 0⟩
    | none =>
      match t.web_session_list with
      | .error e => ⟨.error e, s, 1⟩
      | .ok raw =>
        let sessions : SessionList := ⟨raw⟩
        let s1 := { s with web_session_list_cache := some (some sessions) }
        let s2 :=
          match s1.session_cache with
          | none => s1
          | some item =>
            { s1 with
                session_cache := some (raw.foldl (fun m sess => mapInsert sess.id sess m) item) }
        ⟨.ok sessions, s2, 1⟩

/-- Client::invalidate_all_cached_web_sessions (client.rs lines 356 to 360). -/
def Client.invalidate_all_cached_web_sessions (s : ClientState) : ClientState :=
  match s.web_session_list_cache with
  | none => s
  | some _ => { s with web_session_list_cache := some none }

/-- Client::get_session (client.rs lines 367 to 385). -/
def Client.get_session (t : Transport) (s : ClientState) (id : SessionId) :
    FetchResult Session :=
  match s.session_cache with
  | none => ⟨t.session_by_id id, s, 1⟩
  | some cache =>
    match mapGet id cache with
    | some cached => ⟨.ok cached, s, 0⟩
    | none =>
      match t.session_by_id id with
      | .error e => ⟨.error e, s, 1⟩
      | .ok sess =>
        ⟨.ok sess, { s with session_cache := some (mapInsert id sess cache) }, 1⟩

/-- Client::list_films (client.rs lines 392 to 417). -/
def Client.list_films (t : Transport) (s : ClientState) : FetchResult (List Film) :=
  match s.film_list_cache with
  | none =>
    match t.film_list with
    | .ok raw => ⟨.ok raw, s, 1⟩
    | .error e => ⟨.error e, s, 1⟩
  | some slot =>
    match slot with
    | some cached => ⟨.ok cached, s, 0⟩
    | none =>
      match t.film_list with
      | .error e => ⟨.error e, s, 1⟩
      | .ok films =>
        let s1 := { s with film_list_cache := some (some films) }
        let s2 :=
          match s1.film_cache with
          | none => s1
          | some item =>
            { s1 with
                film_cache := some (films.foldl (fun m f => mapInsert f.id f m) item) }
        ⟨.ok films, s2, 1⟩

/-- Client::invalidate_all_cached_films (client.rs lines 419 to 426). -/
def Client.invalidate_all_cached_films (s : ClientState) : ClientState :=
  let s1 :=
    match s.film_cache with
    | none => s
    | some _ => { s with film_cache := some [] }
  match s1.film_list_cache with
  | none => s1
  | some _ => { s1 with film_list_cache := some none }

/-- Client::invalidate_cached_film (client.rs lines 430 to 437). -/
def Client.invalidate_cached_film (s : ClientState) (id : FilmId) : ClientState :=
  let s1 :=
    match s.film_cache with
    | none => s
    | some cache => { s with film_cache := some (mapErase id cache) }
  match s1.film_list_cache with
  | none => s1
  | some _ => { s1 with film_list_cache := some none }

/-- Client::get_film (client.rs lines 444 to 465). -/
def Client.get_film (t : Transport) (s : ClientState) (id : FilmId) :
    FetchResult Film :=
  match s.film_cache with
  | none => ⟨t.film_by_id id, s, 1⟩
  | some cache =>
    match mapGet id cache with
    | some cached => ⟨.ok cached, s, 0⟩
    | none =>
      match t.film_by_id id with
      | .error e => ⟨.error e, s, 1⟩
      | .ok film =>
        ⟨.ok film, { s with film_cache := some (mapInsert id film cache) }, 1⟩

/-- Client::list_film_packages (client.rs lines 576 to 599). -/
def Client.list_film_packages (t : Transport) (s : ClientState) :
    FetchResult (List FilmPackage) :=
  match s.film_package_list_cache with
  | none =>
    match t.film_package_list with
    | .ok raw => ⟨.ok raw, s, 1⟩
    | .error e => ⟨.error e, s, 1⟩
  | some slot =>
    match slot with
    | some cached => ⟨.ok cached, s, 0⟩
    | none =>
      match t.film_package_list with
      | .error e => ⟨.error e, s, 1⟩
      | .ok packages =>
        let s1 := { s with film_package_list_cache := some (some packages) }
        let s2 :=
          match s1.film_package_cache with
          | none => s1
          | some item =>
            { s1 with
                film_package_cache := some (packages.foldl (fun m p => mapInsert p.id p m) item) }
        ⟨.ok packages, s2, 1⟩

/-- Client::invalidate_all_cached_film_packages (client.rs lines 601 to 608). -/
def Client.invalidate_all_cached_film_packages (s : ClientState) : ClientState :=
  let s1 :=
    match s.film_package_cache with
    | none => s
    | some _ => { s with film_package_cache := some [] }
  match s1.film_package_list_cache with
  | none => s1
  | some _ => { s1 with film_package_list_cache := some none }

/-- Client::invalidate_cached_film_package (client.rs lines 612 to 619). -/
def Client.invalidate_cached_film_package (s : ClientState) (id : FilmPackageId) :
    ClientState :=
  let s1 :=
    match s.film_package_cache with
    | none => s
    | some cache => { s with film_package_cache := some (mapErase id cache) }
  match s1.film_package_list_cache with
  | none => s1
  | some _ => { s1 with film_package_list_cache := some none }

/-- Client::get_film_package (client.rs lines 655 to 676). -/
def Client.get_film_package (t : Transport) (s : ClientState) (id : FilmPackageId) :
    FetchResult FilmPackage :=
  match s.film_package_cache with
  | none => ⟨t.film_package_by_id id, s, 1⟩
  | some cache =>
    match mapGet id cache with
    | some cached => ⟨.ok cached, s, 0⟩
    | none =>
      match t.film_package_by_id id with
      | .error e => ⟨.error e, s, 1⟩
      | .ok package =>
        ⟨.ok package,
          { s with film_package_cache := some (mapInsert id package cache) }, 1⟩

/-- Client::list_screens (client.rs lines 683 to 706). -/
def Client.list_screens (t : Transport) (s : ClientState) : FetchResult (List Screen) :=
  match s.screen_list_cache with
  | none =>
    match t.screen_list with
    | .ok raw => ⟨.ok raw, s, 1⟩
    | .error e => ⟨.error e, s, 1⟩
  | some slot =>
    match slot with
    | some cached => ⟨.ok cached, s, 0⟩
    | none =>
      match t.screen_list with
      | .error e => ⟨.error e, s, 1⟩
      | .ok screens =>
        let s1 := { s with screen_list_cache := some (some screens) }
        let s2 :=
          match s1.screen_cache with
          | none => s1
          | some item =>
            { s1 with
                screen_cache := some (screens.foldl (fun m sc => mapInsert sc.id sc m) item) }
        ⟨.ok screens, s2, 1⟩

/-- Client::invalidate_all_cached_screens (client.rs lines 708 to 715). -/
def Client.invalidate_all_cached_screens (s : ClientState) : ClientState :=
  let s1 :=
    match s.screen_cache with
    | none => s
    | some _ => { s with screen_cache := some [] }
  match s1.screen_list_cache with
  | none => s1
  | some _ => { s1 with screen_list_cache := some none }

/-- Client::invalidate_cached_screen (client.rs lines 719 to 726). -/
def Client.invalidate_cached_screen (s : ClientState) (id : ScreenId) : ClientState :=
  let s1 :=
    match s.screen_cache with
    | none => s
    | some cache => { s with screen_cache := some (mapErase id cache) }
  match s1.screen_list_cache with
  | none => s1
  | some _ => { s1 with screen_list_cache := some none }

/-- Client::get_screen (client.rs lines 733 to 751). -/
def Client.get_screen (t : Transport) (s : ClientState) (id : ScreenId) :
    FetchResult Screen :=
  match s.screen_cache with
  | none => ⟨t.screen_by_id id, s, 1⟩
  | some cache =>
    match mapGet id cache with
    | some cached => ⟨.ok cached, s, 0⟩
    | none =>
      match t.screen_by_id id with
      | .error e => ⟨.error e, s, 1⟩
      | .ok screen =>
        ⟨.ok screen, { s with screen_cache := some (mapInsert id screen cache) }, 1⟩

/-- Client::get_site (client.rs lines 773 to 791). -/
def Client.get_site (t : Transport) (s : ClientState) : FetchResult Site :=
  match s.site_cache with
  | none =>
    match t.site with
    | .ok v => ⟨.ok v, s, 1⟩
    | .error e => ⟨.error e, s, 1⟩
  | some slot =>
    match slot with
    | some cached => ⟨.ok cached, s, 0⟩
    | none =>
      match t.site with
      | .error e => ⟨.error e, s, 1⟩
      | .ok v => ⟨.ok v, { s with site_cache := some (some v) }, 1⟩

/-- Client::invalidate_cached_site (client.rs lines 793 to 797). -/
def Client.invalidate_cached_site (s : ClientState) : ClientState :=
  match s.site_cache with
  | none => s
  | some _ => { s with site_cache := some none }

/-- Client::list_attributes (client.rs lines 804 to 829). -/
def Client.list_attributes (t : Transport) (s : ClientState) :
    FetchResult (List Attribute) :=
  match s.attribute_list_cache with
  | none =>
    match t.attribute_list with
    | .ok raw => ⟨.ok raw, s, 1⟩
    | .error e => ⟨.error e, s, 1⟩
  | some slot =>
    match slot with
    | some cached => ⟨.ok cached, s, 0⟩
    | none =>
      match t.attribute_list with
      | .error e => ⟨.error e, s, 1⟩
      | .ok attrs =>
        let s1 := { s with attribute_list_cache := some (some attrs) }
        let s2 :=
          match s1.attribute_cache with
          | none => s1
          | some item =>
            { s1 with
                attribute_cache := some (attrs.foldl (fun m a => mapInsert a.id a m) item) }
        ⟨.ok attrs, s2, 1⟩

/-- Client::invalidate_all_cached_attributes (client.rs lines 831 to 838). -/
def Client.invalidate_all_cached_attributes (s : ClientState) : ClientState :=
  let s1 :=
    match s.attribute_cache with
    | none => s
    | some _ => { s with attribute_cache := some [] }
  match s1.attribute_list_cache with
  | none => s1
  | some _ => { s1 with attribute_list_cache := some none }

/-- Client::invalidate_cached_attribute (client.rs lines 842 to 849). -/
def Client.invalidate_cached_attribute (s : ClientState) (id : AttributeId) :
    ClientState :=
  let s1 :=
    match s.attribute_cache with
    | none => s
    | some cache => { s with attribute_cache := some (mapErase id cache) }
  match s1.attribute_list_cache with
  | none => s1
  | some _ => { s1 with attribute_list_cache := some none }

/-- Client::get_attribute (client.rs lines 856 to 877). -/
def Client.get_attribute (t : Transport) (s : ClientState) (id : AttributeId) :
    FetchResult Attribute :=
  match s.attribute_cache with
  | none => ⟨t.attribute_by_id id, s, 1⟩
  | some cache =>
    match mapGet id cache with
    | some cached => ⟨.ok cached, s, 0⟩
    | none =>
      match t.attribute_by_id id with
      | .error e => ⟨.error e, s, 1⟩
      | .ok attr =>
        ⟨.ok attr, { s with attribute_cache := some (mapInsert id attr cache) }, 1⟩

/-- Client::invalidate_all_caches (client.rs lines 249 to 257), composing the
per-type invalidations in source order. -/
def Client.invalidate_all_caches (s : ClientState) : ClientState :=
  Client.invalidate_cached_site
    (Client.invalidate_all_cached_attributes
      (Client.invalidate_all_cached_screens
        (Client.invalidate_all_cached_film_packages
          (Client.invalidate_all_cached_films
            (Client.invalidate_all_cached_web_sessions
              (Client.invalidate_all_cached_sessions s))))))

/-- Client::get_films_batch (client.rs lines 990 to 997): sequential get_film
per id, aborting at the first failure. -/
def Client.get_films_batch (t : Transport) (s : ClientState) :
    List FilmId → FetchResult (List Film)
  | [] => ⟨.ok [], s, 0⟩
  | id :: rest =>
    let r := Client.get_film t s id
    match r.res with
    | .error e => ⟨.error e, r.state, r.calls⟩
    | .ok film =>
      let r2 := Client.get_films_batch t r.state rest
      match r2.res with
      | .error e => ⟨.error e, r2.state, r.calls + r2.calls⟩
      | .ok films => ⟨.ok (film :: films), r2.state, r.calls + r2.calls⟩

/-- Client::get_sessions_batch (client.rs lines 1007 to 1014): sequential
get_session per id, aborting at the first failure. -/
def Client.get_sessions_batch (t : Transport) (s : ClientState) :
    List SessionId → FetchResult (List Session)
  | [] => ⟨.ok [], s, 0⟩
  | id :: rest =>
    let r := Client.get_session t s id
    match r.res with
    | .error e => ⟨.error e, r.state, r.calls⟩
    | .ok sess =>
      let r2 := Client.get_sessions_batch t r.state rest
      match r2.res with
      | .error e => ⟨.error e, r2.state, r.calls + r2.calls⟩
      | .ok rest2 => ⟨.ok (sess :: rest2), r2.state, r.calls + r2.calls⟩

/-- SessionList::filter_by_time_range (session.rs lines 154 to 164): keep
sessions whose pre_show_start_time is at or after the start and at or
before the end of the time range. -/
def SessionList.filter_by_time_range (l : SessionList)
    (start stop : NaiveDateTime) : SessionList :=
  ⟨l.sessions.filter (fun sess =>
    NaiveDateTime.le start sess.pre_show_start_time &&
    NaiveDateTime.le sess.pre_show_start_time stop)⟩

/-- SessionList::filter_by_date_range (session.rs lines 170 to 175): both
dates are converted to midnight at the start of the day and the time-range
filter is applied. -/
def SessionList.filter_by_date_range (l : SessionList)
    (start stop : NaiveDate) : SessionList :=
  l.filter_by_time_range (NaiveDate.and_hms000 start) (NaiveDate.and_hms000 stop)

/-- Loop body of SessionList::films (session.rs lines 200 to 211): walk the
sessions, and for each film id not seen before, get_film it and push the
result, threading the cache state and transport call count. -/
def SessionList.filmsAux (t : Transport) :
    List Session → List Film → List FilmId → ClientState → Nat →
    FetchResult (List Film)
  | [], films, _, s, calls => ⟨.ok films, s, calls⟩
  | sess :: rest, films, seen, s, calls =>
    if sess.film_id ∈ seen then
      SessionList.filmsAux t rest films seen s calls
    else
      let r := Client.get_film t s sess.film_id
      match r.res with
      | .error e => ⟨.error e, r.state, calls + r.calls⟩
      | .ok film =>
        SessionList.filmsAux t rest (films ++ [film]) (seen ++ [sess.film_id])
          r.state (calls + r.calls)

/-- SessionList::films (session.rs lines 200 to 211). -/
def SessionList.films (t : Transport) (s : ClientState) (l : SessionList) :
    FetchResult (List Film) :=
  SessionList.filmsAux t l.sessions [] [] s 0

/-- Client::list_films_with_sessions_in_date_range (client.rs lines 558 to
569): list the sessions, filter them by the date range, and resolve the
films of the filtered sessions. -/
def Client.list_films_with_sessions_in_date_range (t : Transport)
    (s : ClientState) (start stop : NaiveDate) : FetchResult (List Film) :=
  let r := Client.list_sessions t s
  match r.res with
  | .error e => ⟨.error e, r.state, r.calls⟩
  | .ok sessions =>
    let r2 := SessionList.films t r.state (sessions.filter_by_date_range start stop)
    ⟨r2.res, r2.state, r.calls + r2.calls⟩

/-- Session::is_open_for_sales (session.rs lines 384 to 391), with the
current time passed explicitly in place of chrono Utc::now.  The source
predicate is a pure function of the session and the clock; it makes no
transport call, which the embedding shows by taking no Transport argument. -/
def Session.is_open_for_sales (now : NaiveDateTime) (s : Session) : Bool :=
  decide (s.status = SessionStatus.Open) &&
  NaiveDateTime.lt now s.sales_cut_off_time &&
  decide (0 < s.seats_available)

/-- First-seen deduplication of film ids, mirroring the seen_ids loop of
SessionList::films: an id is kept the first time it shows up and skipped
afterwards. -/
def firstSeenAux (seen : List FilmId) : List FilmId → List FilmId
  | [] => []
  | i :: rest =>
    if i ∈ seen then firstSeenAux seen rest
    else i :: firstSeenAux (seen ++ [i]) rest

/-- The unique film ids of a list, in first-seen order. -/
def firstSeenIds (ids : List FilmId) : List FilmId := firstSeenAux [] ids

/-- Fetch each film id directly from the transport, left to right, stopping
at the first failure; this is what the SessionList::films loop amounts to
when no film cache is configured. -/
def fetchFilmsById (t : Transport) : List FilmId → ApiResult (List Film)
  | [] => .ok []
  | i :: rest =>
    match t.film_by_id i with
    | .error e => .error e
    | .ok f =>
      match fetchFilmsById t rest with
      | .error e => .error e
      | .ok fs => .ok (f :: fs)

/-- Date-range membership as claim C7 words it: the pre_show_start_time
falls on a day within the inclusive date range, including any time of day
on the end date. -/
def inDateRangeSpec (start stop : NaiveDate) (tm : NaiveDateTime) : Bool :=
  decide (start ≤ tm.day) && decide (tm.day ≤ stop)

/-- The films-in-date-range pipeline exactly as claim C7 words it, for
comparison with the code pipeline: keep the sessions of the fetched list
whose pre_show_start_time falls in the inclusive date range (any time of
day on the end date included), take the unique film ids in first-seen
order, and fetch those films. -/
def spec_films_in_date_range (t : Transport) (raw : List Session)
    (start stop : NaiveDate) : ApiResult (List Film) :=
  fetchFilmsById t (firstSeenIds
    ((raw.filter (fun sess => inDateRangeSpec start stop sess.pre_show_start_time)).map
      (fun sess => sess.film_id)))

/-! Concrete sample values used by the witness theorems. -/

/-- A sample session: status Open, pre-show at midnight of day 0, sales
cutoff one hour later, 5 seats available. -/
def sessW : Session :=
  ⟨1, "F1", none, "T", 2, Seating.Open, false, ShowType.Public,
   ⟨false, false, true, false, false⟩, SessionStatus.Open,
   ⟨0, 0⟩, ⟨0, 3600⟩, ⟨0, 0⟩, ⟨0, 7200⟩, ⟨0, 7800⟩,
   false, false, 5, 0, 0, 0, FilmFormat.Digital2D, "Std", [], none⟩

/-- A second sample session, on day 1 at one minute past midnight, for the
date-range counterexample. -/
def sessLate : Session :=
  ⟨3, "F1", none, "T", 2, Seating.Open, false, ShowType.Public,
   ⟨false, false, true, false, false⟩, SessionStatus.Open,
   ⟨1, 60⟩, ⟨1, 3600⟩, ⟨1, 60⟩, ⟨1, 7200⟩, ⟨1, 7800⟩,
   false, false, 5, 0, 0, 0, FilmFormat.Digital2D, "Std", [], none⟩

/-- The sample film id. -/
def fidW : FilmId := "F1"

/-- The sample attribute id. -/
def aidW : AttributeId := "A1"

/-- A sample film with id F1. -/
def filmW : Film :=
  ⟨"F1", "T", "T", none, "G", "T", "D", ⟨0, 0⟩, none, FilmStatus.Active, none,
   100, 1, none, FilmFormat.Digital2D, false, [], none, none, none, "P", none, none⟩

/-- A sample film package with id 1 and no member films. -/
def packageW : FilmPackage := ⟨1, "P", FilmStatus.Active, []⟩

/-- A sample screen with id 2. -/
def screenW : Screen := ⟨2, "S", "1", false, 100, 0⟩

/-- A sample attribute with id A1. -/
def attrW : Attribute := ⟨"A1", "D", "S", "#fff", "#000", false⟩

/-- A sample site. -/
def siteW : Site :=
  ⟨"N", "S", "L", none, none, none, none, none, none, none, none, none, none,
   none, none, none, none, none, none, none, "UTC", "US", []⟩

/-- A sample transport error. -/
def errW : LibVeeziError := LibVeeziError.Http ⟨500⟩

/-- A transport oracle on which every endpoint succeeds with the sample
values. -/
def tW : Transport :=
  ⟨.ok [sessW], .ok [sessW], fun _ => .ok sessW, .ok [filmW], fun _ => .ok filmW,
   .ok [packageW], fun _ => .ok packageW, .ok [screenW], fun _ => .ok screenW,
   .ok siteW, .ok [attrW], fun _ => .ok attrW⟩

/-- A transport oracle on which every endpoint fails with the sample error. -/
def tErr : Transport :=
  ⟨.error errW, .error errW, fun _ => .error errW, .error errW, fun _ => .error errW,
   .error errW, fun _ => .error errW, .error errW, fun _ => .error errW,
   .error errW, .error errW, fun _ => .error errW⟩

/-- A transport oracle whose session list holds the one session that starts
at one minute past midnight on day 1, and whose film endpoint resolves its
film. -/
def tLate : Transport :=
  ⟨.ok [sessLate], .ok [sessLate], fun _ => .ok sessLate, .ok [filmW],
   fun _ => .ok filmW, .ok [packageW], fun _ => .ok packageW, .ok [screenW],
   fun _ => .ok screenW, .ok siteW, .ok [attrW], fun _ => .ok attrW⟩

/-- A client state with no cache configured for any type. -/
def stNone : ClientState :=
  ⟨none, none, none, none, none, none, none, none, none, none, none, none⟩

/-- A client state with every cache configured and empty. -/
def stMiss : ClientState :=
  ⟨some [], some none, some none, some [], some none, some [], some none,
   some [], some none, some [], some none, some none⟩

/-- A client state with every cache configured and populated with the
sample values. -/
def stHit : ClientState :=
  ⟨some [(1, sessW)], some (some ⟨[sessW]⟩), some (some ⟨[sessW]⟩),
   some [(fidW, filmW)], some (some [filmW]), some [(1, packageW)],
   some (some [packageW]), some [(2, screenW)], some (some [screenW]),
   some [(aidW, attrW)], some (some [attrW]), some (some siteW)⟩

/-! Helper lemmas about the association list cache model. -/

theorem mapGet_mapErase_self {κ α : Type} [DecidableEq κ] (k : κ) (m : List (κ × α)) :
    mapGet k (mapErase k m) = none := by
  induction m with
  | nil => rfl
  | cons p rest ih =>
    obtain ⟨k', v⟩ := p
    by_cases h : k' = k
    · simpa [mapErase, h] using ih
    · simpa [mapErase, mapGet, h] using ih

theorem mapGet_mapErase_ne {κ α : Type} [DecidableEq κ] (k' k : κ) (m : List (κ × α))
    (h : k' ≠ k) : mapGet k (mapErase k' m) = mapGet k m := by
  induction m with
  | nil => rfl
  | cons p rest ih =>
    obtain ⟨k0, v⟩ := p
    by_cases h0 : k0 = k'
    · subst h0
      simp [mapErase, mapGet, h, ih]
    · by_cases h1 : k0 = k <;> simp [mapErase, mapGet, h0, h1, ih, Ne.symm h]

theorem mapGet_mapInsert_self {κ α : Type} [DecidableEq κ] (k : κ) (v : α)
    (m : List (κ × α)) : mapGet k (mapInsert k v m) = some v := by
  simp [mapInsert, mapGet]

theorem mapGet_mapInsert_ne {κ α : Type} [DecidableEq κ] (k' k : κ) (v : α)
    (m : List (κ × α)) (h : k' ≠ k) : mapGet k (mapInsert k' v m) = mapGet k m := by
  simp [mapInsert, mapGet, h, mapGet_mapErase_ne k' k m h]

theorem mapGet_foldl_insert_not_mem {κ α : Type} [DecidableEq κ] (f : α → κ)
    (L : List α) (m0 : List (κ × α)) (k : κ) (hk : k ∉ L.map f) :
    mapGet k (L.foldl (fun m y => mapInsert (f y) y m) m0) = mapGet k m0 := by
  induction L generalizing m0 with
  | nil => rfl
  | cons y L ih =>
    simp only [List.map_cons, List.mem_cons, not_or] at hk
    rw [List.foldl_cons, ih _ hk.2,
      mapGet_mapInsert_ne (f y) k y m0 (fun h => hk.1 h.symm)]

theorem mapGet_foldl_insert_mem_nodup {κ α : Type} [DecidableEq κ] (f : α → κ)
    (L : List α) (m0 : List (κ × α)) (x : α) (hnd : (L.map f).Nodup) (hx : x ∈ L) :
    mapGet (f x) (L.foldl (fun m y => mapInsert (f y) y m) m0) = some x := by
  induction L generalizing m0 with
  | nil => cases hx
  | cons y L ih =>
    simp only [List.map_cons, List.nodup_cons] at hnd
    rcases List.mem_cons.mp hx with h | h
    · subst h
      rw [List.foldl_cons, mapGet_foldl_insert_not_mem f L _ (f x) hnd.1,
        mapGet_mapInsert_self]
    · exact ih _ hnd.2 h

theorem mapGet_foldl_insert_pres {κ α : Type} [DecidableEq κ] (f : α → κ)
    (L : List α) (m0 : List (κ × α)) (k : κ) (h : (mapGet k m0).isSome) :
    (mapGet k (L.foldl (fun m y => mapInsert (f y) y m) m0)).isSome := by
  induction L generalizing m0 with
  | nil => exact h
  | cons y L ih =>
    rw [List.foldl_cons]
    apply ih
    by_cases hk : f y = k
    · subst hk
      rw [mapGet_mapInsert_self]
      rfl
    · rw [mapGet_mapInsert_ne (f y) k y m0 hk]
      exact h

theorem mapGet_foldl_insert_mem_isSome {κ α : Type} [DecidableEq κ] (f : α → κ)
    (L : List α) (m0 : List (κ × α)) (x : α) (hx : x ∈ L) :
    (mapGet (f x) (L.foldl (fun m y => mapInsert (f y) y m) m0)).isSome := by
  induction L generalizing m0 with
  | nil => cases hx
  | cons y L ih =>
    rcases List.mem_cons.mp hx with h | h
    · subst h
      rw [List.foldl_cons]
      exact mapGet_foldl_insert_pres f L _ (f x)
        (by rw [mapGet_mapInsert_self]; rfl)
    · exact ih _ h

/-! Characterizations of the invalidation operations as record updates. -/

theorem invalidate_cached_session_eq (s : ClientState) (id : SessionId) :
    Client.invalidate_cached_session s id =
      { s with
          session_cache := s.session_cache.map (fun c => mapErase id c),
          session_list_cache := s.session_list_cache.map (fun _ => none) } := by
  obtain ⟨a, b, c, d, e, f, g, h, i, j, k, l⟩ := s
  cases a <;> cases b <;> rfl

theorem invalidate_all_cached_sessions_eq (s : ClientState) :
    Client.invalidate_all_cached_sessions s =
      { s with
          session_cache := s.session_cache.map (fun _ => []),
          session_list_cache := s.session_list_cache.map (fun _ => none) } := by
  obtain ⟨a, b, c, d, e, f, g, h, i, j, k, l⟩ := s
  cases a <;> cases b <;> rfl

theorem invalidate_all_cached_web_sessions_eq (s : ClientState) :
    Client.invalidate_all_cached_web_sessions s =
      { s with
          web_session_list_cache := s.web_session_list_cache.map (fun _ => none) } := by
  obtain ⟨a, b, c, d, e, f, g, h, i, j, k, l⟩ := s
  cases c <;> rfl

theorem invalidate_cached_film_eq (s : ClientState) (id : FilmId) :
    Client.invalidate_cached_film s id =
      { s with
          film_cache := s.film_cache.map (fun c => mapErase id c),
          film_list_cache := s.film_list_cache.map (fun _ => none) } := by
  obtain ⟨a, b, c, d, e, f, g, h, i, j, k, l⟩ := s
  cases d <;> cases e <;> rfl

theorem invalidate_all_cached_films_eq (s : ClientState) :
    Client.invalidate_all_cached_films s =
      { s with
          film_cache := s.film_cache.map (fun _ => []),
          film_list_cache := s.film_list_cache.map (fun _ => none) } := by
  obtain ⟨a, b, c, d, e, f, g, h, i, j, k, l⟩ := s
  cases d <;> cases e <;> rfl

theorem invalidate_cached_film_package_eq (s : ClientState) (id : FilmPackageId) :
    Client.invalidate_cached_film_package s id =
      { s with
          film_package_cache := s.film_package_cache.map (fun c => mapErase id c),
          film_package_list_cache := s.film_package_list_cache.map (fun _ => none) } := by
  obtain ⟨a, b, c, d, e, f, g, h, i, j, k, l⟩ := s
  cases f <;> cases g <;> rfl

theorem invalidate_all_cached_film_packages_eq (s : ClientState) :
    Client.invalidate_all_cached_film_packages s =
      { s with
          film_package_cache := s.film_package_cache.map (fun _ => []),
          film_package_list_cache := s.film_package_list_cache.map (fun _ => none) } := by
  obtain ⟨a, b, c, d, e, f, g, h, i, j, k, l⟩ := s
  cases f <;> cases g <;> rfl

theorem invalidate_cached_screen_eq (s : ClientState) (id : ScreenId) :
    Client.invalidate_cached_screen s id =
      { s with
          screen_cache := s.screen_cache.map (fun c => mapErase id c),
          screen_list_cache := s.screen_list_cache.map (fun _ => none) } := by
  obtain ⟨a, b, c, d, e, f, g, h, i, j, k, l⟩ := s
  cases h <;> cases i <;> rfl

theorem invalidate_all_cached_screens_eq (s : ClientState) :
    Client.invalidate_all_cached_screens s =
      { s with
          screen_cache := s.screen_cache.map (fun _ => []),
          screen_list_cache := s.screen_list_cache.map (fun _ => none) } := by
  obtain ⟨a, b, c, d, e, f, g, h, i, j, k, l⟩ := s
  cases h <;> cases i <;> rfl

theorem invalidate_cached_attribute_eq (s : ClientState) (id : AttributeId) :
    Client.invalidate_cached_attribute s id =
      { s with
          attribute_cache := s.attribute_cache.map (fun c => mapErase id c),
          attribute_list_cache := s.attribute_list_cache.map (fun _ => none) } := by
  obtain ⟨a, b, c, d, e, f, g, h, i, j, k, l⟩ := s
  cases j <;> cases k <;> rfl

theorem invalidate_all_cached_attributes_eq (s : ClientState) :
    Client.invalidate_all_cached_attributes s =
      { s with
          attribute_cache := s.attribute_cache.map (fun _ => []),
          attribute_list_cache := s.attribute_list_cache.map (fun _ => none) } := by
  obtain ⟨a, b, c, d, e, f, g, h, i, j, k, l⟩ := s
  cases j <;> cases k <;> rfl

theorem invalidate_cached_site_eq (s : ClientState) :
    Client.invalidate_cached_site s =
      { s with site_cache := s.site_cache.map (fun _ => none) } := by
  obtain ⟨a, b, c, d, e, f, g, h, i, j, k, l⟩ := s
  cases l <;> rfl

theorem invalidate_all_caches_eq (s : ClientState) :
    Client.invalidate_all_caches s =
      { s with
          session_cache := s.session_cache.map (fun _ => []),
          session_list_cache := s.session_list_cache.map (fun _ => none),
          web_session_list_cache := s.web_session_list_cache.map (fun _ => none),
          film_cache := s.film_cache.map (fun _ => []),
          film_list_cache := s.film_list_cache.map (fun _ => none),
          film_package_cache := s.film_package_cache.map (fun _ => []),
          film_package_list_cache := s.film_package_list_cache.map (fun _ => none),
          screen_cache := s.screen_cache.map (fun _ => []),
          screen_list_cache := s.screen_list_cache.map (fun _ => none),
          attribute_cache := s.attribute_cache.map (fun _ => []),
          attribute_list_cache := s.attribute_list_cache.map (fun _ => none),
          site_cache := s.site_cache.map (fun _ => none) } := by
  simp [Client.invalidate_all_caches, invalidate_all_cached_sessions_eq,
    invalidate_all_cached_web_sessions_eq, invalidate_all_cached_films_eq,
    invalidate_all_cached_film_packages_eq, invalidate_all_cached_screens_eq,
    invalidate_all_cached_attributes_eq, invalidate_cached_site_eq]

/-- Mapping a constant function over an Option twice is the same as once. -/
theorem option_map_const_map_const {α β : Type} (o : Option α) (c : β) (d : β) :
    (o.map (fun _ => c)).map (fun _ => d) = o.map (fun _ => d) := by
  cases o <;> rfl

/-- C9: Calling the global invalidate-all operation twice in a row leaves the
client in the same state as calling it once, and the same holds for each
per-type invalidate-all operation (sessions, web sessions, films, film
packages, screens, attributes, and the site slot). -/
theorem C9_invalidate_all_idempotent :
    (∀ s, Client.invalidate_all_caches (Client.invalidate_all_caches s) =
      Client.invalidate_all_caches s) ∧
    (∀ s, Client.invalidate_all_cached_sessions (Client.invalidate_all_cached_sessions s) =
      Client.invalidate_all_cached_sessions s) ∧
    (∀ s, Client.invalidate_all_cached_web_sessions
        (Client.invalidate_all_cached_web_sessions s) =
      Client.invalidate_all_cached_web_sessions s) ∧
    (∀ s, Client.invalidate_all_cached_films (Client.invalidate_all_cached_films s) =
      Client.invalidate_all_cached_films s) ∧
    (∀ s, Client.invalidate_all_cached_film_packages
        (Client.invalidate_all_cached_film_packages s) =
      Client.invalidate_all_cached_film_packages s) ∧
    (∀ s, Client.invalidate_all_cached_screens (Client.invalidate_all_cached_screens s) =
      Client.invalidate_all_cached_screens s) ∧
    (∀ s, Client.invalidate_all_cached_attributes
        (Client.invalidate_all_cached_attributes s) =
      Client.invalidate_all_cached_attributes s) ∧
    (∀ s, Client.invalidate_cached_site (Client.invalidate_cached_site s) =
      Client.invalidate_cached_site s) := by
  refine ⟨?_, ?_, ?_, ?_, ?_, ?_, ?_, ?_⟩ <;> intro s <;>
    simp [invalidate_all_caches_eq, invalidate_all_cached_sessions_eq,
      invalidate_all_cached_web_sessions_eq, invalidate_all_cached_films_eq,
      invalidate_all_cached_film_packages_eq, invalidate_all_cached_screens_eq,
      invalidate_all_cached_attributes_eq, invalidate_cached_site_eq,
      option_map_const_map_const, Function.comp_def]

/-- C8: The open-for-sales predicate holds exactly when the session status is
Open, the clock is strictly before the sales cutoff time, and the available
seat count is positive; it is a pure function of the session and the clock
(no transport involved).  The two concrete conjuncts are the spec scenario:
status Open, cutoff one hour ahead, 5 seats gives true, and the same
session with 0 seats gives false. -/
theorem C8_is_open_for_sales_iff :
    (∀ (now : NaiveDateTime) (sess : Session),
      Session.is_open_for_sales now sess = true ↔
        (sess.status = SessionStatus.Open ∧
         NaiveDateTime.lt now sess.sales_cut_off_time = true ∧
         0 < sess.seats_available)) ∧
    Session.is_open_for_sales ⟨0, 0⟩
      ⟨1, "F1", none, "T", 2, Seating.Open, false, ShowType.Public,
       ⟨false, false, true, false, false⟩, SessionStatus.Open,
       ⟨0, 0⟩, ⟨0, 3600⟩, ⟨0, 0⟩, ⟨0, 7200⟩, ⟨0, 7800⟩,
       false, false, 5, 0, 0, 0, FilmFormat.Digital2D, "Std", [], none⟩ = true ∧
    Session.is_open_for_sales ⟨0, 0⟩
      ⟨1, "F1", none, "T", 2, Seating.Open, false, ShowType.Public,
       ⟨false, false, true, false, false⟩, SessionStatus.Open,
       ⟨0, 0⟩, ⟨0, 3600⟩, ⟨0, 0⟩, ⟨0, 7200⟩, ⟨0, 7800⟩,
       false, false, 0, 0, 0, 0, FilmFormat.Digital2D, "Std", [], none⟩ = false := by
  refine ⟨?_, by decide, by decide⟩
  intro now sess
  simp [Session.is_open_for_sales, Bool.and_eq_true, and_assoc]

/-- C3: For every entity type with a get-by-id operation (session, film,
film package, screen, attribute), the operation follows exactly this
sequence: with no item cache configured it calls the transport once and
returns the result with no cache interaction; with a cache, a hit returns
the cached value immediately with no transport call and no state change; a
miss calls the transport once, inserts the fetched item under the
requested id, and returns it.  In particular a second get for the same id
immediately after a successful one makes no transport call and returns the
identical value. -/
theorem C3_get_by_id_contract :
    (∀ (t : Transport) (s : ClientState) (id : SessionId), s.session_cache = none →
      Client.get_session t s id = ⟨t.session_by_id id, s, 1⟩) ∧
    (∀ (t : Transport) (s : ClientState) (id : SessionId)
      (cache : List (SessionId × Session)) (v : Session),
      s.session_cache = some cache → mapGet id cache = some v →
      Client.get_session t s id = ⟨.ok v, s, 0⟩) ∧
    (∀ (t : Transport) (s : ClientState) (id : SessionId)
      (cache : List (SessionId × Session)) (v : Session),
      s.session_cache = some cache → mapGet id cache = none →
      t.session_by_id id = .ok v →
      Client.get_session t s id =
        ⟨.ok v, { s with session_cache := some (mapInsert id v cache) }, 1⟩) ∧
    (∀ (t : Transport) (s : ClientState) (id : SessionId)
      (cache : List (SessionId × Session)) (v : Session),
      s.session_cache = some cache →
      (Client.get_session t s id).res = .ok v →
      Client.get_session t (Client.get_session t s id).state id =
        ⟨.ok v, (Client.get_session t s id).state, 0⟩) ∧
    (∀ (t : Transport) (s : ClientState) (id : FilmId), s.film_cache = none →
      Client.get_film t s id = ⟨t.film_by_id id, s, 1⟩) ∧
    (∀ (t : Transport) (s : ClientState) (id : FilmId)
      (cache : List (FilmId × Film)) (v : Film),
      s.film_cache = some cache → mapGet id cache = some v →
      Client.get_film t s id = ⟨.ok v, s, 0⟩) ∧
    (∀ (t : Transport) (s : ClientState) (id : FilmId)
      (cache : List (FilmId × Film)) (v : Film),
      s.film_cache = some cache → mapGet id cache = none →
      t.film_by_id id = .ok v →
      Client.get_film t s id =
        ⟨.ok v, { s with film_cache := some (mapInsert id v cache) }, 1⟩) ∧
    (∀ (t : Transport) (s : ClientState) (id : FilmId)
      (cache : List (FilmId × Film)) (v : Film),
      s.film_cache = some cache →
      (Client.get_film t s id).res = .ok v →
      Client.get_film t (Client.get_film t s id).state id =
        ⟨.ok v, (Client.get_film t s id).state, 0⟩) ∧
    (∀ (t : Transport) (s : ClientState) (id : FilmPackageId),
      s.film_package_cache = none →
      Client.get_film_package t s id = ⟨t.film_package_by_id id, s, 1⟩) ∧
    (∀ (t : Transport) (s : ClientState) (id : FilmPackageId)
      (cache : List (FilmPackageId × FilmPackage)) (v : FilmPackage),
      s.film_package_cache = some cache → mapGet id cache = some v →
      Client.get_film_package t s id = ⟨.ok v, s, 0⟩) ∧
    (∀ (t : Transport) (s : ClientState) (id : FilmPackageId)
      (cache : List (FilmPackageId × FilmPackage)) (v : FilmPackage),
      s.film_package_cache = some cache → mapGet id cache = none →
      t.film_package_by_id id = .ok v →
      Client.get_film_package t s id =
        ⟨.ok v, { s with film_package_cache := some (mapInsert id v cache) }, 1⟩) ∧
    (∀ (t : Transport) (s : ClientState) (id : FilmPackageId)
      (cache : List (FilmPackageId × FilmPackage)) (v : FilmPackage),
      s.film_package_cache = some cache →
      (Client.get_film_package t s id).res = .ok v →
      Client.get_film_package t (Client.get_film_package t s id).state id =
        ⟨.ok v, (Client.get_film_package t s id).state, 0⟩) ∧
    (∀ (t : Transport) (s : ClientState) (id : ScreenId), s.screen_cache = none →
      Client.get_screen t s id = ⟨t.screen_by_id id, s, 1⟩) ∧
    (∀ (t : Transport) (s : ClientState) (id : ScreenId)
      (cache : List (ScreenId × Screen)) (v : Screen),
      s.screen_cache = some cache → mapGet id cache = some v →
      Client.get_screen t s id = ⟨.ok v, s, 0⟩) ∧
    (∀ (t : Transport) (s : ClientState) (id : ScreenId)
      (cache : List (ScreenId × Screen)) (v : Screen),
      s.screen_cache = some cache → mapGet id cache = none →
      t.screen_by_id id = .ok v →
      Client.get_screen t s id =
        ⟨.ok v, { s with screen_cache := some (mapInsert id v cache) }, 1⟩) ∧
    (∀ (t : Transport) (s : ClientState) (id : ScreenId)
      (cache : List (ScreenId × Screen)) (v : Screen),
      s.screen_cache = some cache →
      (Client.get_screen t s id).res = .ok v →
      Client.get_screen t (Client.get_screen t s id).state id =
        ⟨.ok v, (Client.get_screen t s id).state, 0⟩) ∧
    (∀ (t : Transport) (s : ClientState) (id : AttributeId),
      s.attribute_cache = none →
      Client.get_attribute t s id = ⟨t.attribute_by_id id, s, 1⟩) ∧
    (∀ (t : Transport) (s : ClientState) (id : AttributeId)
      (cache : List (AttributeId × Attribute)) (v : Attribute),
      s.attribute_cache = some cache → mapGet id cache = some v →
      Client.get_attribute t s id = ⟨.ok v, s, 0⟩) ∧
    (∀ (t : Transport) (s : ClientState) (id : AttributeId)
      (cache : List (AttributeId × Attribute)) (v : Attribute),
      s.attribute_cache = some cache → mapGet id cache = none →
      t.attribute_by_id id = .ok v →
      Client.get_attribute t s id =
        ⟨.ok v, { s with attribute_cache := some (mapInsert id v cache) }, 1⟩) ∧
    (∀ (t : Transport) (s : ClientState) (id : AttributeId)
      (cache : List (AttributeId × Attribute)) (v : Attribute),
      s.attribute_cache = some cache →
      (Client.get_attribute t s id).res = .ok v →
      Client.get_attribute t (Client.get_attribute t s id).state id =
        ⟨.ok v, (Client.get_attribute t s id).state, 0⟩) := by
  refine ⟨?_, ?_, ?_, ?_, ?_, ?_, ?_, ?_, ?_, ?_, ?_, ?_, ?_, ?_, ?_, ?_, ?_, ?_, ?_, ?_⟩
  · intro t s id h
    simp [Client.get_session, h]
  · intro t s id cache v hc hv
    simp [Client.get_session, hc, hv]
  · intro t s id cache v hc hm ht
    simp [Client.get_session, hc, hm, ht]
  · intro t s id cache v hc hres
    cases hm : mapGet id cache with
    | some w =>
      have h1 : Client.get_session t s id = ⟨.ok w, s, 0⟩ := by
        simp [Client.get_session, hc, hm]
      rw [h1] at hres ⊢
      simp at hres
      subst hres
      simp [Client.get_session, hc, hm]
    | none =>
      cases ht : t.session_by_id id with
      | error e =>
        have h1 : Client.get_session t s id = ⟨.error e, s, 1⟩ := by
          simp [Client.get_session, hc, hm, ht]
        rw [h1] at hres
        simp at hres
      | ok w =>
        have h1 : Client.get_session t s id =
            ⟨.ok w, { s with session_cache := some (mapInsert id w cache) }, 1⟩ := by
          simp [Client.get_session, hc, hm, ht]
        rw [h1] at hres ⊢
        simp at hres
        subst hres
        simp [Client.get_session, mapGet_mapInsert_self]
  · intro t s id h
    simp [Client.get_film, h]
  · intro t s id cache v hc hv
    simp [Client.get_film, hc, hv]
  · intro t s id cache v hc hm ht
    simp [Client.get_film, hc, hm, ht]
  · intro t s id cache v hc hres
    cases hm : mapGet id cache with
    | some w =>
      have h1 : Client.get_film t s id = ⟨.ok w, s, 0⟩ := by
        simp [Client.get_film, hc, hm]
      rw [h1] at hres ⊢
      simp at hres
      subst hres
      simp [Client.get_film, hc, hm]
    | none =>
      cases ht : t.film_by_id id with
      | error e =>
        have h1 : Client.get_film t s id = ⟨.error e, s, 1⟩ := by
          simp [Client.get_film, hc, hm, ht]
        rw [h1] at hres
        simp at hres
      | ok w =>
        have h1 : Client.get_film t s id =
            ⟨.ok w, { s with film_cache := some (mapInsert id w cache) }, 1⟩ := by
          simp [Client.get_film, hc, hm, ht]
        rw [h1] at hres ⊢
        simp at hres
        subst hres
        simp [Client.get_film, mapGet_mapInsert_self]
  · intro t s id h
    simp [Client.get_film_package, h]
  · intro t s id cache v hc hv
    simp [Client.get_film_package, hc, hv]
  · intro t s id cache v hc hm ht
    simp [Client.get_film_package, hc, hm, ht]
  · intro t s id cache v hc hres
    cases hm : mapGet id cache with
    | some w =>
      have h1 : Client.get_film_package t s id = ⟨.ok w, s, 0⟩ := by
        simp [Client.get_film_package, hc, hm]
      rw [h1] at hres ⊢
      simp at hres
      subst hres
      simp [Client.get_film_package, hc, hm]
    | none =>
      cases ht : t.film_package_by_id id with
      | error e =>
        have h1 : Client.get_film_package t s id = ⟨.error e, s, 1⟩ := by
          simp [Client.get_film_package, hc, hm, ht]
        rw [h1] at hres
        simp at hres
      | ok w =>
        have h1 : Client.get_film_package t s id =
            ⟨.ok w, { s with film_package_cache := some (mapInsert id w cache) }, 1⟩ := by
          simp [Client.get_film_package, hc, hm, ht]
        rw [h1] at hres ⊢
        simp at hres
        subst hres
        simp [Client.get_film_package, mapGet_mapInsert_self]
  · intro t s id h
    simp [Client.get_screen, h]
  · intro t s id cache v hc hv
    simp [Client.get_screen, hc, hv]
  · intro t s id cache v hc hm ht
    simp [Client.get_screen, hc, hm, ht]
  · intro t s id cache v hc hres
    cases hm : mapGet id cache with
    | some w =>
      have h1 : Client.get_screen t s id = ⟨.ok w, s, 0⟩ := by
        simp [Client.get_screen, hc, hm]
      rw [h1] at hres ⊢
      simp at hres
      subst hres
      simp [Client.get_screen, hc, hm]
    | none =>
      cases ht : t.screen_by_id id with
      | error e =>
        have h1 : Client.get_screen t s id = ⟨.error e, s, 1⟩ := by
          simp [Client.get_screen, hc, hm, ht]
        rw [h1] at hres
        simp at hres
      | ok w =>
        have h1 : Client.get_screen t s id =
            ⟨.ok w, { s with screen_cache := some (mapInsert id w cache) }, 1⟩ := by
          simp [Client.get_screen, hc, hm, ht]
        rw [h1] at hres ⊢
        simp at hres
        subst hres
        simp [Client.get_screen, mapGet_mapInsert_self]
  · intro t s id h
    simp [Client.get_attribute, h]
  · intro t s id cache v hc hv
    simp [Client.get_attribute, hc, hv]
  · intro t s id cache v hc hm ht
    simp [Client.get_attribute, hc, hm, ht]
  · intro t s id cache v hc hres
    cases hm : mapGet id cache with
    | some w =>
      have h1 : Client.get_attribute t s id = ⟨.ok w, s, 0⟩ := by
        simp [Client.get_attribute, hc, hm]
      rw [h1] at hres ⊢
      simp at hres
      subst hres
      simp [Client.get_attribute, hc, hm]
    | none =>
      cases ht : t.attribute_by_id id with
      | error e =>
        have h1 : Client.get_attribute t s id = ⟨.error e, s, 1⟩ := by
          simp [Client.get_attribute, hc, hm, ht]
        rw [h1] at hres
        simp at hres
      | ok w =>
        have h1 : Client.get_attribute t s id =
            ⟨.ok w, { s with attribute_cache := some (mapInsert id w cache) }, 1⟩ := by
          simp [Client.get_attribute, hc, hm, ht]
        rw [h1] at hres ⊢
        simp at hres
        subst hres
        simp [Client.get_attribute, mapGet_mapInsert_self]

/-- Witness for C3: the cache-hit conjunct of each entity type applied at
the populated sample state. -/
theorem C3_get_by_id_contract_witness :
    Client.get_session tW stHit 1 = ⟨.ok sessW, stHit, 0⟩ ∧
    Client.get_film tW stHit fidW = ⟨.ok filmW, stHit, 0⟩ ∧
    Client.get_film_package tW stHit 1 = ⟨.ok packageW, stHit, 0⟩ ∧
    Client.get_screen tW stHit 2 = ⟨.ok screenW, stHit, 0⟩ ∧
    Client.get_attribute tW stHit aidW = ⟨.ok attrW, stHit, 0⟩ := by
  obtain ⟨-, hs, -, -, -, hf, -, -, -, hp, -, -, -, hsc, -, -, -, ha, -, -⟩ :=
    C3_get_by_id_contract
  exact ⟨hs tW stHit 1 [(1, sessW)] sessW rfl (by decide),
    hf tW stHit fidW [(fidW, filmW)] filmW rfl (by decide),
    hp tW stHit 1 [(1, packageW)] packageW rfl (by decide),
    hsc tW stHit 2 [(2, screenW)] screenW rfl (by decide),
    ha tW stHit aidW [(aidW, attrW)] attrW rfl (by decide)⟩

/-- C4: For every entity type with caching configured, invalidating a single
item by id removes exactly that id from the item cache (other keys keep
their entries) and unconditionally empties the list-cache slot, whatever it
held; consequently the next get for that id and the next list call both
make a transport call. -/
theorem C4_invalidate_item_clears_list_cache :
    (∀ (t : Transport) (s : ClientState) (id : SessionId)
      (cache : List (SessionId × Session)) (slot : Option SessionList),
      s.session_cache = some cache → s.session_list_cache = some slot →
      ∃ cache2,
        (Client.invalidate_cached_session s id).session_cache = some cache2 ∧
        mapGet id cache2 = none ∧
        (∀ k, k ≠ id → mapGet k cache2 = mapGet k cache) ∧
        (Client.invalidate_cached_session s id).session_list_cache = some none ∧
        (Client.get_session t (Client.invalidate_cached_session s id) id).calls = 1 ∧
        (Client.list_sessions t (Client.invalidate_cached_session s id)).calls = 1) ∧
    (∀ (t : Transport) (s : ClientState) (id : FilmId)
      (cache : List (FilmId × Film)) (slot : Option (List Film)),
      s.film_cache = some cache → s.film_list_cache = some slot →
      ∃ cache2,
        (Client.invalidate_cached_film s id).film_cache = some cache2 ∧
        mapGet id cache2 = none ∧
        (∀ k, k ≠ id → mapGet k cache2 = mapGet k cache) ∧
        (Client.invalidate_cached_film s id).film_list_cache = some none ∧
        (Client.get_film t (Client.invalidate_cached_film s id) id).calls = 1 ∧
        (Client.list_films t (Client.invalidate_cached_film s id)).calls = 1) ∧
    (∀ (t : Transport) (s : ClientState) (id : FilmPackageId)
      (cache : List (FilmPackageId × FilmPackage)) (slot : Option (List FilmPackage)),
      s.film_package_cache = some cache → s.film_package_list_cache = some slot →
      ∃ cache2,
        (Client.invalidate_cached_film_package s id).film_package_cache = some cache2 ∧
        mapGet id cache2 = none ∧
        (∀ k, k ≠ id → mapGet k cache2 = mapGet k cache) ∧
        (Client.invalidate_cached_film_package s id).film_package_list_cache = some none ∧
        (Client.get_film_package t (Client.invalidate_cached_film_package s id) id).calls = 1 ∧
        (Client.list_film_packages t (Client.invalidate_cached_film_package s id)).calls = 1) ∧
    (∀ (t : Transport) (s : ClientState) (id : ScreenId)
      (cache : List (ScreenId × Screen)) (slot : Option (List Screen)),
      s.screen_cache = some cache → s.screen_list_cache = some slot →
      ∃ cache2,
        (Client.invalidate_cached_screen s id).screen_cache = some cache2 ∧
        mapGet id cache2 = none ∧
        (∀ k, k ≠ id → mapGet k cache2 = mapGet k cache) ∧
        (Client.invalidate_cached_screen s id).screen_list_cache = some none ∧
        (Client.get_screen t (Client.invalidate_cached_screen s id) id).calls = 1 ∧
        (Client.list_screens t (Client.invalidate_cached_screen s id)).calls = 1) ∧
    (∀ (t : Transport) (s : ClientState) (id : AttributeId)
      (cache : List (AttributeId × Attribute)) (slot : Option (List Attribute)),
      s.attribute_cache = some cache → s.attribute_list_cache = some slot →
      ∃ cache2,
        (Client.invalidate_cached_attribute s id).attribute_cache = some cache2 ∧
        mapGet id cache2 = none ∧
        (∀ k, k ≠ id → mapGet k cache2 = mapGet k cache) ∧
        (Client.invalidate_cached_attribute s id).attribute_list_cache = some none ∧
        (Client.get_attribute t (Client.invalidate_cached_attribute s id) id).calls = 1 ∧
        (Client.list_attributes t (Client.invalidate_cached_attribute s id)).calls = 1) := by
  refine ⟨?_, ?_, ?_, ?_, ?_⟩
  · intro t s id cache slot hc hl
    refine ⟨mapErase id cache, ?_, mapGet_mapErase_self id cache, ?_, ?_, ?_, ?_⟩
    · rw [invalidate_cached_session_eq]
      simp [hc]
    · intro k hk
      exact mapGet_mapErase_ne id k cache (Ne.symm hk)
    · rw [invalidate_cached_session_eq]
      simp [hl]
    · rw [invalidate_cached_session_eq]
      cases ht : t.session_by_id id <;>
        simp [Client.get_session, hc, mapGet_mapErase_self, ht]
    · rw [invalidate_cached_session_eq]
      cases ht : t.session_list <;>
        simp [Client.list_sessions, hc, hl, ht]
  · intro t s id cache slot hc hl
    refine ⟨mapErase id cache, ?_, mapGet_mapErase_self id cache, ?_, ?_, ?_, ?_⟩
    · rw [invalidate_cached_film_eq]
      simp [hc]
    · intro k hk
      exact mapGet_mapErase_ne id k cache (Ne.symm hk)
    · rw [invalidate_cached_film_eq]
      simp [hl]
    · rw [invalidate_cached_film_eq]
      cases ht : t.film_by_id id <;>
        simp [Client.get_film, hc, mapGet_mapErase_self, ht]
    · rw [invalidate_cached_film_eq]
      cases ht : t.film_list <;>
        simp [Client.list_films, hc, hl, ht]
  · intro t s id cache slot hc hl
    refine ⟨mapErase id cache, ?_, mapGet_mapErase_self id cache, ?_, ?_, ?_, ?_⟩
    · rw [invalidate_cached_film_package_eq]
      simp [hc]
    · intro k hk
      exact mapGet_mapErase_ne id k cache (Ne.symm hk)
    · rw [invalidate_cached_film_package_eq]
      simp [hl]
    · rw [invalidate_cached_film_package_eq]
      cases ht : t.film_package_by_id id <;>
        simp [Client.get_film_package, hc, mapGet_mapErase_self, ht]
    · rw [invalidate_cached_film_package_eq]
      cases ht : t.film_package_list <;>
        simp [Client.list_film_packages, hc, hl, ht]
  · intro t s id cache slot hc hl
    refine ⟨mapErase id cache, ?_, mapGet_mapErase_self id cache, ?_, ?_, ?_, ?_⟩
    · rw [invalidate_cached_screen_eq]
      simp [hc]
    · intro k hk
      exact mapGet_mapErase_ne id k cache (Ne.symm hk)
    · rw [invalidate_cached_screen_eq]
      simp [hl]
    · rw [invalidate_cached_screen_eq]
      cases ht : t.screen_by_id id <;>
        simp [Client.get_screen, hc, mapGet_mapErase_self, ht]
    · rw [invalidate_cached_screen_eq]
      cases ht : t.screen_list <;>
        simp [Client.list_screens, hc, hl, ht]
  · intro t s id cache slot hc hl
    refine ⟨mapErase id cache, ?_, mapGet_mapErase_self id cache, ?_, ?_, ?_, ?_⟩
    · rw [invalidate_cached_attribute_eq]
      simp [hc]
    · intro k hk
      exact mapGet_mapErase_ne id k cache (Ne.symm hk)
    · rw [invalidate_cached_attribute_eq]
      simp [hl]
    · rw [invalidate_cached_attribute_eq]
      cases ht : t.attribute_by_id id <;>
        simp [Client.get_attribute, hc, mapGet_mapErase_self, ht]
    · rw [invalidate_cached_attribute_eq]
      cases ht : t.attribute_list <;>
        simp [Client.list_attributes, hc, hl, ht]

/-- Witness for C4: the session conjunct applied at the populated sample
state with its populated list slot. -/
theorem C4_invalidate_item_clears_list_cache_witness :
    ∃ cache2,
      (Client.invalidate_cached_session stHit 1).session_cache = some cache2 ∧
      mapGet 1 cache2 = none ∧
      (∀ k, k ≠ 1 → mapGet k cache2 = mapGet k [(1, sessW)]) ∧
      (Client.invalidate_cached_session stHit 1).session_list_cache = some none ∧
      (Client.get_session tW (Client.invalidate_cached_session stHit 1) 1).calls = 1 ∧
      (Client.list_sessions tW (Client.invalidate_cached_session stHit 1)).calls = 1 :=
  C4_invalidate_item_clears_list_cache.1 tW stHit 1 [(1, sessW)]
    (some ⟨[sessW]⟩) rfl rfl

/-- C5: For every fetch operation of every entity type, when the transport
call for its endpoint fails, the cache state is left exactly as it was, at
most one transport call is made (no retry), and either the error is
returned to the caller unchanged or the operation was served from cache
without any transport call at all. -/
theorem C5_failed_fetch_leaves_caches_unchanged :
    (∀ (t : Transport) (s : ClientState) (e : LibVeeziError),
      t.session_list = .error e →
      (Client.list_sessions t s).state = s ∧ (Client.list_sessions t s).calls ≤ 1 ∧
      ((Client.list_sessions t s).res = .error e ∨ (Client.list_sessions t s).calls = 0)) ∧
    (∀ (t : Transport) (s : ClientState) (e : LibVeeziError),
      t.web_session_list = .error e →
      (Client.list_web_sessions t s).state = s ∧
      (Client.list_web_sessions t s).calls ≤ 1 ∧
      ((Client.list_web_sessions t s).res = .error e ∨
        (Client.list_web_sessions t s).calls = 0)) ∧
    (∀ (t : Transport) (s : ClientState) (id : SessionId) (e : LibVeeziError),
      t.session_by_id id = .error e →
      (Client.get_session t s id).state = s ∧ (Client.get_session t s id).calls ≤ 1 ∧
      ((Client.get_session t s id).res = .error e ∨ (Client.get_session t s id).calls = 0)) ∧
    (∀ (t : Transport) (s : ClientState) (e : LibVeeziError),
      t.film_list = .error e →
      (Client.list_films t s).state = s ∧ (Client.list_films t s).calls ≤ 1 ∧
      ((Client.list_films t s).res = .error e ∨ (Client.list_films t s).calls = 0)) ∧
    (∀ (t : Transport) (s : ClientState) (id : FilmId) (e : LibVeeziError),
      t.film_by_id id = .error e →
      (Client.get_film t s id).state = s ∧ (Client.get_film t s id).calls ≤ 1 ∧
      ((Client.get_film t s id).res = .error e ∨ (Client.get_film t s id).calls = 0)) ∧
    (∀ (t : Transport) (s : ClientState) (e : LibVeeziError),
      t.film_package_list = .error e →
      (Client.list_film_packages t s).state = s ∧
      (Client.list_film_packages t s).calls ≤ 1 ∧
      ((Client.list_film_packages t s).res = .error e ∨
        (Client.list_film_packages t s).calls = 0)) ∧
    (∀ (t : Transport) (s : ClientState) (id : FilmPackageId) (e : LibVeeziError),
      t.film_package_by_id id = .error e →
      (Client.get_film_package t s id).state = s ∧
      (Client.get_film_package t s id).calls ≤ 1 ∧
      ((Client.get_film_package t s id).res = .error e ∨
        (Client.get_film_package t s id).calls = 0)) ∧
    (∀ (t : Transport) (s : ClientState) (e : LibVeeziError),
      t.screen_list = .error e →
      (Client.list_screens t s).state = s ∧ (Client.list_screens t s).calls ≤ 1 ∧
      ((Client.list_screens t s).res = .error e ∨ (Client.list_screens t s).calls = 0)) ∧
    (∀ (t : Transport) (s : ClientState) (id : ScreenId) (e : LibVeeziError),
      t.screen_by_id id = .error e →
      (Client.get_screen t s id).state = s ∧ (Client.get_screen t s id).calls ≤ 1 ∧
      ((Client.get_screen t s id).res = .error e ∨ (Client.get_screen t s id).calls = 0)) ∧
    (∀ (t : Transport) (s : ClientState) (e : LibVeeziError),
      t.site = .error e →
      (Client.get_site t s).state = s ∧ (Client.get_site t s).calls ≤ 1 ∧
      ((Client.get_site t s).res = .error e ∨ (Client.get_site t s).calls = 0)) ∧
    (∀ (t : Transport) (s : ClientState) (e : LibVeeziError),
      t.attribute_list = .error e →
      (Client.list_attributes t s).state = s ∧ (Client.list_attributes t s).calls ≤ 1 ∧
      ((Client.list_attributes t s).res = .error e ∨
        (Client.list_attributes t s).calls = 0)) ∧
    (∀ (t : Transport) (s : ClientState) (id : AttributeId) (e : LibVeeziError),
      t.attribute_by_id id = .error e →
      (Client.get_attribute t s id).state = s ∧ (Client.get_attribute t s id).calls ≤ 1 ∧
      ((Client.get_attribute t s id).res = .error e ∨
        (Client.get_attribute t s id).calls = 0)) := by
  refine ⟨?_, ?_, ?_, ?_, ?_, ?_, ?_, ?_, ?_, ?_, ?_, ?_⟩
  · intro t s e h
    cases hc : s.session_list_cache with
    | none => simp [Client.list_sessions, hc, h]
    | some slot => cases slot <;> simp [Client.list_sessions, hc, h]
  · intro t s e h
    cases hc : s.web_session_list_cache with
    | none => simp [Client.list_web_sessions, hc, h]
    | some slot => cases slot <;> simp [Client.list_web_sessions, hc, h]
  · intro t s id e h
    cases hc : s.session_cache with
    | none => simp [Client.get_session, hc, h]
    | some cache => cases hm : mapGet id cache <;> simp [Client.get_session, hc, hm, h]
  · intro t s e h
    cases hc : s.film_list_cache with
    | none => simp [Client.list_films, hc, h]
    | some slot => cases slot <;> simp [Client.list_films, hc, h]
  · intro t s id e h
    cases hc : s.film_cache with
    | none => simp [Client.get_film, hc, h]
    | some cache => cases hm : mapGet id cache <;> simp [Client.get_film, hc, hm, h]
  · intro t s e h
    cases hc : s.film_package_list_cache with
    | none => simp [Client.list_film_packages, hc, h]
    | some slot => cases slot <;> simp [Client.list_film_packages, hc, h]
  · intro t s id e h
    cases hc : s.film_package_cache with
    | none => simp [Client.get_film_package, hc, h]
    | some cache =>
      cases hm : mapGet id cache <;> simp [Client.get_film_package, hc, hm, h]
  · intro t s e h
    cases hc : s.screen_list_cache with
    | none => simp [Client.list_screens, hc, h]
    | some slot => cases slot <;> simp [Client.list_screens, hc, h]
  · intro t s id e h
    cases hc : s.screen_cache with
    | none => simp [Client.get_screen, hc, h]
    | some cache => cases hm : mapGet id cache <;> simp [Client.get_screen, hc, hm, h]
  · intro t s e h
    cases hc : s.site_cache with
    | none => simp [Client.get_site, hc, h]
    | some slot => cases slot <;> simp [Client.get_site, hc, h]
  · intro t s e h
    cases hc : s.attribute_list_cache with
    | none => simp [Client.list_attributes, hc, h]
    | some slot => cases slot <;> simp [Client.list_attributes, hc, h]
  · intro t s id e h
    cases hc : s.attribute_cache with
    | none => simp [Client.get_attribute, hc, h]
    | some cache => cases hm : mapGet id cache <;> simp [Client.get_attribute, hc, hm, h]

/-- Witness for C5: the session-list conjunct applied at the all-failing
transport and the cache-less sample state. -/
theorem C5_failed_fetch_leaves_caches_unchanged_witness :
    (Client.list_sessions tErr stNone).state = stNone ∧
    (Client.list_sessions tErr stNone).calls ≤ 1 ∧
    ((Client.list_sessions tErr stNone).res = .error errW ∨
      (Client.list_sessions tErr stNone).calls = 0) :=
  C5_failed_fetch_leaves_caches_unchanged.1 tErr stNone errW rfl

/-- C1: For every entity type with both a list cache and an item cache
configured, a successful list-all call that misses the list cache stores
the full fetched list in the list cache and overwrites the item-cache
entry of every member under that member's id, so that afterwards every
member of the returned list is present in the item cache (and, when the
fetched ids are distinct, with exactly the content it has in the cached
list); a list-cache hit returns the cached list with the whole state, item
cache included, untouched. -/
theorem C1_list_miss_backfills_item_cache :
    (∀ (t : Transport) (s : ClientState) (item : List (SessionId × Session))
      (raw : List Session),
      s.session_list_cache = some none → s.session_cache = some item →
      t.session_list = .ok raw →
      (Client.list_sessions t s).res = .ok ⟨raw⟩ ∧
      (Client.list_sessions t s).state.session_list_cache = some (some ⟨raw⟩) ∧
      ∃ item2, (Client.list_sessions t s).state.session_cache = some item2 ∧
        (∀ sess ∈ raw, (mapGet sess.id item2).isSome) ∧
        ((raw.map Session.id).Nodup → ∀ sess ∈ raw, mapGet sess.id item2 = some sess)) ∧
    (∀ (t : Transport) (s : ClientState) (w : SessionList),
      s.session_list_cache = some (some w) →
      Client.list_sessions t s = ⟨.ok w, s, 0⟩) ∧
    (∀ (t : Transport) (s : ClientState) (item : List (FilmId × Film))
      (raw : List Film),
      s.film_list_cache = some none → s.film_cache = some item →
      t.film_list = .ok raw →
      (Client.list_films t s).res = .ok raw ∧
      (Client.list_films t s).state.film_list_cache = some (some raw) ∧
      ∃ item2, (Client.list_films t s).state.film_cache = some item2 ∧
        (∀ f ∈ raw, (mapGet f.id item2).isSome) ∧
        ((raw.map Film.id).Nodup → ∀ f ∈ raw, mapGet f.id item2 = some f)) ∧
    (∀ (t : Transport) (s : ClientState) (w : List Film),
      s.film_list_cache = some (some w) →
      Client.list_films t s = ⟨.ok w, s, 0⟩) ∧
    (∀ (t : Transport) (s : ClientState) (item : List (FilmPackageId × FilmPackage))
      (raw : List FilmPackage),
      s.film_package_list_cache = some none → s.film_package_cache = some item →
      t.film_package_list = .ok raw →
      (Client.list_film_packages t s).res = .ok raw ∧
      (Client.list_film_packages t s).state.film_package_list_cache = some (some raw) ∧
      ∃ item2, (Client.list_film_packages t s).state.film_package_cache = some item2 ∧
        (∀ p ∈ raw, (mapGet p.id item2).isSome) ∧
        ((raw.map FilmPackage.id).Nodup → ∀ p ∈ raw, mapGet p.id item2 = some p)) ∧
    (∀ (t : Transport) (s : ClientState) (w : List FilmPackage),
      s.film_package_list_cache = some (some w) →
      Client.list_film_packages t s = ⟨.ok w, s, 0⟩) ∧
    (∀ (t : Transport) (s : ClientState) (item : List (ScreenId × Screen))
      (raw : List Screen),
      s.screen_list_cache = some none → s.screen_cache = some item →
      t.screen_list = .ok raw →
      (Client.list_screens t s).res = .ok raw ∧
      (Client.list_screens t s).state.screen_list_cache = some (some raw) ∧
      ∃ item2, (Client.list_screens t s).state.screen_cache = some item2 ∧
        (∀ sc ∈ raw, (mapGet sc.id item2).isSome) ∧
        ((raw.map Screen.id).Nodup → ∀ sc ∈ raw, mapGet sc.id item2 = some sc)) ∧
    (∀ (t : Transport) (s : ClientState) (w : List Screen),
      s.screen_list_cache = some (some w) →
      Client.list_screens t s = ⟨.ok w, s, 0⟩) ∧
    (∀ (t : Transport) (s : ClientState) (item : List (AttributeId × Attribute))
      (raw : List Attribute),
      s.attribute_list_cache = some none → s.attribute_cache = some item →
      t.attribute_list = .ok raw →
      (Client.list_attributes t s).res = .ok raw ∧
      (Client.list_attributes t s).state.attribute_list_cache = some (some raw) ∧
      ∃ item2, (Client.list_attributes t s).state.attribute_cache = some item2 ∧
        (∀ a ∈ raw, (mapGet a.id item2).isSome) ∧
        ((raw.map Attribute.id).Nodup → ∀ a ∈ raw, mapGet a.id item2 = some a)) ∧
    (∀ (t : Transport) (s : ClientState) (w : List Attribute),
      s.attribute_list_cache = some (some w) →
      Client.list_attributes t s = ⟨.ok w, s, 0⟩) := by
  refine ⟨?_, ?_, ?_, ?_, ?_, ?_, ?_, ?_, ?_, ?_⟩
  · intro t s item raw hl hc ht
    refine ⟨?_, ?_, ?_⟩
    · simp [Client.list_sessions, hl, hc, ht]
    · simp [Client.list_sessions, hl, hc, ht]
    · refine ⟨raw.foldl (fun m sess => mapInsert sess.id sess m) item, ?_, ?_, ?_⟩
      · simp [Client.list_sessions, hl, hc, ht]
      · intro sess hs
        exact mapGet_foldl_insert_mem_isSome Session.id raw item sess hs
      · intro hnd sess hs
        exact mapGet_foldl_insert_mem_nodup Session.id raw item sess hnd hs
  · intro t s w h
    simp [Client.list_sessions, h]
  · intro t s item raw hl hc ht
    refine ⟨?_, ?_, ?_⟩
    · simp [Client.list_films, hl, hc, ht]
    · simp [Client.list_films, hl, hc, ht]
    · refine ⟨raw.foldl (fun m f => mapInsert f.id f m) item, ?_, ?_, ?_⟩
      · simp [Client.list_films, hl, hc, ht]
      · intro f hf
        exact mapGet_foldl_insert_mem_isSome Film.id raw item f hf
      · intro hnd f hf
        exact mapGet_foldl_insert_mem_nodup Film.id raw item f hnd hf
  · intro t s w h
    simp [Client.list_films, h]
  · intro t s item raw hl hc ht
    refine ⟨?_, ?_, ?_⟩
    · simp [Client.list_film_packages, hl, hc, ht]
    · simp [Client.list_film_packages, hl, hc, ht]
    · refine ⟨raw.foldl (fun m p => mapInsert p.id p m) item, ?_, ?_, ?_⟩
      · simp [Client.list_film_packages, hl, hc, ht]
      · intro p hp
        exact mapGet_foldl_insert_mem_isSome FilmPackage.id raw item p hp
      · intro hnd p hp
        exact mapGet_foldl_insert_mem_nodup FilmPackage.id raw item p hnd hp
  · intro t s w h
    simp [Client.list_film_packages, h]
  · intro t s item raw hl hc ht
    refine ⟨?_, ?_, ?_⟩
    · simp [Client.list_screens, hl, hc, ht]
    · simp [Client.list_screens, hl, hc, ht]
    · refine ⟨raw.foldl (fun m sc => mapInsert sc.id sc m) item, ?_, ?_, ?_⟩
      · simp [Client.list_screens, hl, hc, ht]
      · intro sc hsc
        exact mapGet_foldl_insert_mem_isSome Screen.id raw item sc hsc
      · intro hnd sc hsc
        exact mapGet_foldl_insert_mem_nodup Screen.id raw item sc hnd hsc
  · intro t s w h
    simp [Client.list_screens, h]
  · intro t s item raw hl hc ht
    refine ⟨?_, ?_, ?_⟩
    · simp [Client.list_attributes, hl, hc, ht]
    · simp [Client.list_attributes, hl, hc, ht]
    · refine ⟨raw.foldl (fun m a => mapInsert a.id a m) item, ?_, ?_, ?_⟩
      · simp [Client.list_attributes, hl, hc, ht]
      · intro a ha
        exact mapGet_foldl_insert_mem_isSome Attribute.id raw item a ha
      · intro hnd a ha
        exact mapGet_foldl_insert_mem_nodup Attribute.id raw item a hnd ha
  · intro t s w h
    simp [Client.list_attributes, h]

/-- Witness for C1: the session list-miss conjunct at the all-configured
empty sample state, and the film-package list-hit conjunct at the
populated sample state. -/
theorem C1_list_miss_backfills_item_cache_witness :
    ((Client.list_sessions tW stMiss).res = .ok ⟨[sessW]⟩ ∧
      (Client.list_sessions tW stMiss).state.session_list_cache = some (some ⟨[sessW]⟩) ∧
      ∃ item2, (Client.list_sessions tW stMiss).state.session_cache = some item2 ∧
        (∀ sess ∈ [sessW], (mapGet sess.id item2).isSome) ∧
        (([sessW].map Session.id).Nodup →
          ∀ sess ∈ [sessW], mapGet sess.id item2 = some sess)) ∧
    Client.list_film_packages tW stHit = ⟨.ok [packageW], stHit, 0⟩ := by
  obtain ⟨h1, -, -, -, -, h6, -, -, -, -⟩ := C1_list_miss_backfills_item_cache
  exact ⟨h1 tW stMiss [] [sessW] rfl rfl rfl, h6 tW stHit [packageW] rfl⟩

/-- A batch of get_film calls on ids that are all present in the configured
film cache makes no transport call, leaves the state unchanged, and
succeeds. -/
theorem get_films_batch_all_hits (t : Transport) (s : ClientState)
    (cache : List (FilmId × Film)) (hc : s.film_cache = some cache) :
    ∀ ids : List FilmId, (∀ i ∈ ids, (mapGet i cache).isSome) →
    (Client.get_films_batch t s ids).calls = 0 ∧
    (Client.get_films_batch t s ids).state = s ∧
    ∃ vs, (Client.get_films_batch t s ids).res = .ok vs := by
  intro ids
  induction ids with
  | nil => exact fun _ => ⟨rfl, rfl, [], rfl⟩
  | cons i rest ih =>
    intro h
    obtain ⟨v, hv⟩ := Option.isSome_iff_exists.mp (h i (List.mem_cons_self i rest))
    have h1 : Client.get_film t s i = ⟨.ok v, s, 0⟩ := by
      simp [Client.get_film, hc, hv]
    obtain ⟨hcalls, hstate, vs, hres⟩ := ih (fun j hj => h j (List.mem_cons_of_mem i hj))
    refine ⟨?_, ?_, v :: vs, ?_⟩ <;>
      simp [Client.get_films_batch, h1, hres, hcalls, hstate]

/-- A batch of get_session calls on ids that are all present in the
configured session cache makes no transport call, leaves the state
unchanged, and succeeds. -/
theorem get_sessions_batch_all_hits (t : Transport) (s : ClientState)
    (cache : List (SessionId × Session)) (hc : s.session_cache = some cache) :
    ∀ ids : List SessionId, (∀ i ∈ ids, (mapGet i cache).isSome) →
    (Client.get_sessions_batch t s ids).calls = 0 ∧
    (Client.get_sessions_batch t s ids).state = s ∧
    ∃ vs, (Client.get_sessions_batch t s ids).res = .ok vs := by
  intro ids
  induction ids with
  | nil => exact fun _ => ⟨rfl, rfl, [], rfl⟩
  | cons i rest ih =>
    intro h
    obtain ⟨v, hv⟩ := Option.isSome_iff_exists.mp (h i (List.mem_cons_self i rest))
    have h1 : Client.get_session t s i = ⟨.ok v, s, 0⟩ := by
      simp [Client.get_session, hc, hv]
    obtain ⟨hcalls, hstate, vs, hres⟩ := ih (fun j hj => h j (List.mem_cons_of_mem i hj))
    refine ⟨?_, ?_, v :: vs, ?_⟩ <;>
      simp [Client.get_sessions_batch, h1, hres, hcalls, hstate]

/-- C2: With both list and item caches configured and the list cache empty,
a list-all call that fetches N items performs exactly one transport call,
and the immediately following get-by-id calls for exactly those ids are
all served from the item cache: the whole batch performs zero transport
calls and succeeds (stated through the batch operations for films and
sessions, and per member for film packages, screens and attributes, whose
gets also make no transport call and leave the state unchanged, so any
sequence of them stays at zero transport calls). -/
theorem C2_list_then_gets_one_transport_call :
    (∀ (t : Transport) (s : ClientState) (item : List (FilmId × Film))
      (raw : List Film),
      s.film_list_cache = some none → s.film_cache = some item →
      t.film_list = .ok raw →
      (Client.list_films t s).calls = 1 ∧
      (Client.get_films_batch t (Client.list_films t s).state (raw.map Film.id)).calls = 0 ∧
      (Client.get_films_batch t (Client.list_films t s).state (raw.map Film.id)).state =
        (Client.list_films t s).state ∧
      ∃ vs, (Client.get_films_batch t (Client.list_films t s).state
        (raw.map Film.id)).res = .ok vs) ∧
    (∀ (t : Transport) (s : ClientState) (item : List (SessionId × Session))
      (raw : List Session),
      s.session_list_cache = some none → s.session_cache = some item →
      t.session_list = .ok raw →
      (Client.list_sessions t s).calls = 1 ∧
      (Client.get_sessions_batch t (Client.list_sessions t s).state
        (raw.map Session.id)).calls = 0 ∧
      (Client.get_sessions_batch t (Client.list_sessions t s).state
        (raw.map Session.id)).state = (Client.list_sessions t s).state ∧
      ∃ vs, (Client.get_sessions_batch t (Client.list_sessions t s).state
        (raw.map Session.id)).res = .ok vs) ∧
    (∀ (t : Transport) (s : ClientState) (item : List (FilmPackageId × FilmPackage))
      (raw : List FilmPackage) (x : FilmPackage),
      s.film_package_list_cache = some none → s.film_package_cache = some item →
      t.film_package_list = .ok raw → x ∈ raw →
      (Client.list_film_packages t s).calls = 1 ∧
      (Client.get_film_package t (Client.list_film_packages t s).state x.id).calls = 0 ∧
      (Client.get_film_package t (Client.list_film_packages t s).state x.id).state =
        (Client.list_film_packages t s).state) ∧
    (∀ (t : Transport) (s : ClientState) (item : List (ScreenId × Screen))
      (raw : List Screen) (x : Screen),
      s.screen_list_cache = some none → s.screen_cache = some item →
      t.screen_list = .ok raw → x ∈ raw →
      (Client.list_screens t s).calls = 1 ∧
      (Client.get_screen t (Client.list_screens t s).state x.id).calls = 0 ∧
      (Client.get_screen t (Client.list_screens t s).state x.id).state =
        (Client.list_screens t s).state) ∧
    (∀ (t : Transport) (s : ClientState) (item : List (AttributeId × Attribute))
      (raw : List Attribute) (x : Attribute),
      s.attribute_list_cache = some none → s.attribute_cache = some item →
      t.attribute_list = .ok raw → x ∈ raw →
      (Client.list_attributes t s).calls = 1 ∧
      (Client.get_attribute t (Client.list_attributes t s).state x.id).calls = 0 ∧
      (Client.get_attribute t (Client.list_attributes t s).state x.id).state =
        (Client.list_attributes t s).state) := by
  refine ⟨?_, ?_, ?_, ?_, ?_⟩
  · intro t s item raw hl hc ht
    have hstate : (Client.list_films t s).state.film_cache =
        some (raw.foldl (fun m f => mapInsert f.id f m) item) := by
      simp [Client.list_films, hl, hc, ht]
    have hall : ∀ i ∈ raw.map Film.id,
        (mapGet i (raw.foldl (fun m f => mapInsert f.id f m) item)).isSome := by
      intro i hi
      obtain ⟨x, hx, rfl⟩ := List.mem_map.mp hi
      exact mapGet_foldl_insert_mem_isSome Film.id raw item x hx
    obtain ⟨h1, h2, vs, h3⟩ :=
      get_films_batch_all_hits t (Client.list_films t s).state _ hstate
        (raw.map Film.id) hall
    exact ⟨by simp [Client.list_films, hl, hc, ht], h1, h2, vs, h3⟩
  · intro t s item raw hl hc ht
    have hstate : (Client.list_sessions t s).state.session_cache =
        some (raw.foldl (fun m sess => mapInsert sess.id sess m) item) := by
      simp [Client.list_sessions, hl, hc, ht]
    have hall : ∀ i ∈ raw.map Session.id,
        (mapGet i (raw.foldl (fun m sess => mapInsert sess.id sess m) item)).isSome := by
      intro i hi
      obtain ⟨x, hx, rfl⟩ := List.mem_map.mp hi
      exact mapGet_foldl_insert_mem_isSome Session.id raw item x hx
    obtain ⟨h1, h2, vs, h3⟩ :=
      get_sessions_batch_all_hits t (Client.list_sessions t s).state _ hstate
        (raw.map Session.id) hall
    exact ⟨by simp [Client.list_sessions, hl, hc, ht], h1, h2, vs, h3⟩
  · intro t s item raw x hl hc ht hx
    have hstate : (Client.list_film_packages t s).state.film_package_cache =
        some (raw.foldl (fun m p => mapInsert p.id p m) item) := by
      simp [Client.list_film_packages, hl, hc, ht]
    obtain ⟨v, hv⟩ := Option.isSome_iff_exists.mp
      (mapGet_foldl_insert_mem_isSome FilmPackage.id raw item x hx)
    refine ⟨by simp [Client.list_film_packages, hl, hc, ht], ?_, ?_⟩ <;>
      simp [Client.get_film_package, hstate, hv]
  · intro t s item raw x hl hc ht hx
    have hstate : (Client.list_screens t s).state.screen_cache =
        some (raw.foldl (fun m sc => mapInsert sc.id sc m) item) := by
      simp [Client.list_screens, hl, hc, ht]
    obtain ⟨v, hv⟩ := Option.isSome_iff_exists.mp
      (mapGet_foldl_insert_mem_isSome Screen.id raw item x hx)
    refine ⟨by simp [Client.list_screens, hl, hc, ht], ?_, ?_⟩ <;>
      simp [Client.get_screen, hstate, hv]
  · intro t s item raw x hl hc ht hx
    have hstate : (Client.list_attributes t s).state.attribute_cache =
        some (raw.foldl (fun m a => mapInsert a.id a m) item) := by
      simp [Client.list_attributes, hl, hc, ht]
    obtain ⟨v, hv⟩ := Option.isSome_iff_exists.mp
      (mapGet_foldl_insert_mem_isSome Attribute.id raw item x hx)
    refine ⟨by simp [Client.list_attributes, hl, hc, ht], ?_, ?_⟩ <;>
      simp [Client.get_attribute, hstate, hv]

/-- Witness for C2: the film conjunct at the all-configured empty sample
state fetching the one-film sample list. -/
theorem C2_list_then_gets_one_transport_call_witness :
    (Client.list_films tW stMiss).calls = 1 ∧
    (Client.get_films_batch tW (Client.list_films tW stMiss).state
      ([filmW].map Film.id)).calls = 0 ∧
    (Client.get_films_batch tW (Client.list_films tW stMiss).state
      ([filmW].map Film.id)).state = (Client.list_films tW stMiss).state ∧
    ∃ vs, (Client.get_films_batch tW (Client.list_films tW stMiss).state
      ([filmW].map Film.id)).res = .ok vs :=
  C2_list_then_gets_one_transport_call.1 tW stMiss [] [filmW] rfl rfl rfl

/-- C6: The web-sessions list operation follows the same list contract as
list_sessions but against its own dedicated single-slot list cache: with no
cache it passes straight through to the websession endpoint; a hit returns
the cached list with no transport call and no state change; a miss fetches
the websession endpoint once, stores the list in the web list slot, leaves
every other cache of every other type unchanged, and back-fills the shared
session item cache with every session of the fetched list under its
session id, never removing or altering entries for ids outside the fetched
list. -/
theorem C6_web_sessions_contract :
    (∀ (t : Transport) (s : ClientState), s.web_session_list_cache = none →
      (Client.list_web_sessions t s).state = s ∧
      (Client.list_web_sessions t s).calls = 1 ∧
      (∀ raw, t.web_session_list = .ok raw →
        (Client.list_web_sessions t s).res = .ok ⟨raw⟩) ∧
      (∀ e, t.web_session_list = .error e →
        (Client.list_web_sessions t s).res = .error e)) ∧
    (∀ (t : Transport) (s : ClientState) (w : SessionList),
      s.web_session_list_cache = some (some w) →
      Client.list_web_sessions t s = ⟨.ok w, s, 0⟩) ∧
    (∀ (t : Transport) (s : ClientState) (raw : List Session),
      s.web_session_list_cache = some none → t.web_session_list = .ok raw →
      (Client.list_web_sessions t s).res = .ok ⟨raw⟩ ∧
      (Client.list_web_sessions t s).calls = 1 ∧
      (Client.list_web_sessions t s).state.web_session_list_cache = some (some ⟨raw⟩) ∧
      (Client.list_web_sessions t s).state.session_list_cache = s.session_list_cache ∧
      (Client.list_web_sessions t s).state.film_cache = s.film_cache ∧
      (Client.list_web_sessions t s).state.film_list_cache = s.film_list_cache ∧
      (Client.list_web_sessions t s).state.film_package_cache = s.film_package_cache ∧
      (Client.list_web_sessions t s).state.film_package_list_cache =
        s.film_package_list_cache ∧
      (Client.list_web_sessions t s).state.screen_cache = s.screen_cache ∧
      (Client.list_web_sessions t s).state.screen_list_cache = s.screen_list_cache ∧
      (Client.list_web_sessions t s).state.attribute_cache = s.attribute_cache ∧
      (Client.list_web_sessions t s).state.attribute_list_cache = s.attribute_list_cache ∧
      (Client.list_web_sessions t s).state.site_cache = s.site_cache ∧
      (s.session_cache = none →
        (Client.list_web_sessions t s).state.session_cache = none) ∧
      (∀ item, s.session_cache = some item →
        ∃ item2, (Client.list_web_sessions t s).state.session_cache = some item2 ∧
          (∀ k, k ∉ raw.map Session.id → mapGet k item2 = mapGet k item) ∧
          (∀ sess ∈ raw, (mapGet sess.id item2).isSome) ∧
          ((raw.map Session.id).Nodup →
            ∀ sess ∈ raw, mapGet sess.id item2 = some sess))) := by
  refine ⟨?_, ?_, ?_⟩
  · intro t s h
    refine ⟨?_, ?_, ?_, ?_⟩ <;>
      cases ht : t.web_session_list <;>
        simp [Client.list_web_sessions, h, ht]
  · intro t s w h
    simp [Client.list_web_sessions, h]
  · intro t s raw hl ht
    refine ⟨?_, ?_, ?_, ?_, ?_, ?_, ?_, ?_, ?_, ?_, ?_, ?_, ?_, ?_, ?_⟩
    · cases hc : s.session_cache <;> simp [Client.list_web_sessions, hl, ht, hc]
    · cases hc : s.session_cache <;> simp [Client.list_web_sessions, hl, ht, hc]
    · cases hc : s.session_cache <;> simp [Client.list_web_sessions, hl, ht, hc]
    · cases hc : s.session_cache <;> simp [Client.list_web_sessions, hl, ht, hc]
    · cases hc : s.session_cache <;> simp [Client.list_web_sessions, hl, ht, hc]
    · cases hc : s.session_cache <;> simp [Client.list_web_sessions, hl, ht, hc]
    · cases hc : s.session_cache <;> simp [Client.list_web_sessions, hl, ht, hc]
    · cases hc : s.session_cache <;> simp [Client.list_web_sessions, hl, ht, hc]
    · cases hc : s.session_cache <;> simp [Client.list_web_sessions, hl, ht, hc]
    · cases hc : s.session_cache <;> simp [Client.list_web_sessions, hl, ht, hc]
    · cases hc : s.session_cache <;> simp [Client.list_web_sessions, hl, ht, hc]
    · cases hc : s.session_cache <;> simp [Client.list_web_sessions, hl, ht, hc]
    · cases hc : s.session_cache <;> simp [Client.list_web_sessions, hl, ht, hc]
    · intro hc
      simp [Client.list_web_sessions, hl, ht, hc]
    · intro item hc
      refine ⟨raw.foldl (fun m sess => mapInsert sess.id sess m) item, ?_, ?_, ?_, ?_⟩
      · simp [Client.list_web_sessions, hl, ht, hc]
      · intro k hk
        exact mapGet_foldl_insert_not_mem Session.id raw item k hk
      · intro sess hs
        exact mapGet_foldl_insert_mem_isSome Session.id raw item sess hs
      · intro hnd sess hs
        exact mapGet_foldl_insert_mem_nodup Session.id raw item sess hnd hs

/-- Witness for C6: the cache-hit conjunct at the populated sample state and
the pass-through conjunct at the cache-less sample state. -/
theorem C6_web_sessions_contract_witness :
    Client.list_web_sessions tW stHit = ⟨.ok ⟨[sessW]⟩, stHit, 0⟩ ∧
    ((Client.list_web_sessions tW stNone).state = stNone ∧
      (Client.list_web_sessions tW stNone).calls = 1 ∧
      (∀ raw, tW.web_session_list = .ok raw →
        (Client.list_web_sessions tW stNone).res = .ok ⟨raw⟩) ∧
      (∀ e, tW.web_session_list = .error e →
        (Client.list_web_sessions tW stNone).res = .error e)) :=
  ⟨C6_web_sessions_contract.2.1 tW stHit ⟨[sessW]⟩ rfl,
   C6_web_sessions_contract.1 tW stNone rfl⟩

/-- C10: Invalidating one session by id, and invalidating all cached
sessions, both leave the web session list cache and every cache of every
other entity type untouched; consequently a list_web_sessions call right
after the invalidation is still served from the cached web session list
with no transport call. -/
theorem C10_session_invalidation_frame :
    (∀ (s : ClientState) (id : SessionId),
      (Client.invalidate_cached_session s id).web_session_list_cache =
        s.web_session_list_cache ∧
      (Client.invalidate_cached_session s id).film_cache = s.film_cache ∧
      (Client.invalidate_cached_session s id).film_list_cache = s.film_list_cache ∧
      (Client.invalidate_cached_session s id).film_package_cache =
        s.film_package_cache ∧
      (Client.invalidate_cached_session s id).film_package_list_cache =
        s.film_package_list_cache ∧
      (Client.invalidate_cached_session s id).screen_cache = s.screen_cache ∧
      (Client.invalidate_cached_session s id).screen_list_cache = s.screen_list_cache ∧
      (Client.invalidate_cached_session s id).attribute_cache = s.attribute_cache ∧
      (Client.invalidate_cached_session s id).attribute_list_cache =
        s.attribute_list_cache ∧
      (Client.invalidate_cached_session s id).site_cache = s.site_cache) ∧
    (∀ s : ClientState,
      (Client.invalidate_all_cached_sessions s).web_session_list_cache =
        s.web_session_list_cache ∧
      (Client.invalidate_all_cached_sessions s).film_cache = s.film_cache ∧
      (Client.invalidate_all_cached_sessions s).film_list_cache = s.film_list_cache ∧
      (Client.invalidate_all_cached_sessions s).film_package_cache =
        s.film_package_cache ∧
      (Client.invalidate_all_cached_sessions s).film_package_list_cache =
        s.film_package_list_cache ∧
      (Client.invalidate_all_cached_sessions s).screen_cache = s.screen_cache ∧
      (Client.invalidate_all_cached_sessions s).screen_list_cache =
        s.screen_list_cache ∧
      (Client.invalidate_all_cached_sessions s).attribute_cache = s.attribute_cache ∧
      (Client.invalidate_all_cached_sessions s).attribute_list_cache =
        s.attribute_list_cache ∧
      (Client.invalidate_all_cached_sessions s).site_cache = s.site_cache) ∧
    (∀ (t : Transport) (s : ClientState) (id : SessionId) (w : SessionList),
      s.web_session_list_cache = some (some w) →
      Client.list_web_sessions t (Client.invalidate_cached_session s id) =
        ⟨.ok w, Client.invalidate_cached_session s id, 0⟩) ∧
    (∀ (t : Transport) (s : ClientState) (w : SessionList),
      s.web_session_list_cache = some (some w) →
      Client.list_web_sessions t (Client.invalidate_all_cached_sessions s) =
        ⟨.ok w, Client.invalidate_all_cached_sessions s, 0⟩) := by
  refine ⟨?_, ?_, ?_, ?_⟩
  · intro s id
    rw [invalidate_cached_session_eq]
    exact ⟨rfl, rfl, rfl, rfl, rfl, rfl, rfl, rfl, rfl, rfl⟩
  · intro s
    rw [invalidate_all_cached_sessions_eq]
    exact ⟨rfl, rfl, rfl, rfl, rfl, rfl, rfl, rfl, rfl, rfl⟩
  · intro t s id w h
    have h2 : (Client.invalidate_cached_session s id).web_session_list_cache =
        some (some w) := by
      rw [invalidate_cached_session_eq]
      simpa using h
    simp [Client.list_web_sessions, h2]
  · intro t s w h
    have h2 : (Client.invalidate_all_cached_sessions s).web_session_list_cache =
        some (some w) := by
      rw [invalidate_all_cached_sessions_eq]
      simpa using h
    simp [Client.list_web_sessions, h2]

/-- Witness for C10: the still-served-from-cache conjunct at the populated
sample state. -/
theorem C10_session_invalidation_frame_witness :
    Client.list_web_sessions tW (Client.invalidate_cached_session stHit 1) =
      ⟨.ok ⟨[sessW]⟩, Client.invalidate_cached_session stHit 1, 0⟩ :=
  C10_session_invalidation_frame.2.2.1 tW stHit 1 ⟨[sessW]⟩ rfl

/-- Members of the first-seen deduplication are never ids that were already
seen. -/
theorem firstSeenAux_not_seen :
    ∀ (l seen : List FilmId) (j : FilmId), j ∈ firstSeenAux seen l → j ∉ seen := by
  intro l
  induction l with
  | nil =>
    intro seen j hj
    simp [firstSeenAux] at hj
  | cons i rest ih =>
    intro seen j hj
    by_cases hm : i ∈ seen
    · rw [firstSeenAux, if_pos hm] at hj
      exact ih seen j hj
    · rw [firstSeenAux, if_neg hm] at hj
      rcases List.mem_cons.mp hj with h | h
      · subst h
        exact hm
      · intro hcon
        exact ih (seen ++ [i]) j h (List.mem_append_left [i] hcon)

/-- The first-seen deduplication never contains an id twice. -/
theorem firstSeenAux_nodup : ∀ (l seen : List FilmId), (firstSeenAux seen l).Nodup := by
  intro l
  induction l with
  | nil =>
    intro seen
    simp [firstSeenAux]
  | cons i rest ih =>
    intro seen
    by_cases hm : i ∈ seen
    · rw [firstSeenAux, if_pos hm]
      exact ih seen
    · rw [firstSeenAux, if_neg hm]
      refine List.nodup_cons.mpr ⟨?_, ih (seen ++ [i])⟩
      intro hcon
      exact firstSeenAux_not_seen rest (seen ++ [i]) i hcon
        (List.mem_append_right seen (List.mem_singleton.mpr rfl))

/-- With no film cache configured, the films loop resolves exactly the
first-seen unique film ids straight from the transport and appends them to
its accumulator. -/
theorem filmsAux_res_no_film_cache (t : Transport) :
    ∀ (ss : List Session) (acc : List Film) (seen : List FilmId)
      (s : ClientState), s.film_cache = none → ∀ calls : Nat,
    (SessionList.filmsAux t ss acc seen s calls).res =
      match fetchFilmsById t
        (firstSeenAux seen (ss.map (fun sess => sess.film_id))) with
      | .ok fs => .ok (acc ++ fs)
      | .error e => .error e := by
  intro ss
  induction ss with
  | nil =>
    intro acc seen s h calls
    simp [SessionList.filmsAux, firstSeenAux, fetchFilmsById]
  | cons sess rest ih =>
    intro acc seen s h calls
    by_cases hm : sess.film_id ∈ seen
    · have e1 : SessionList.filmsAux t (sess :: rest) acc seen s calls =
          SessionList.filmsAux t rest acc seen s calls := by
        simp [SessionList.filmsAux, hm]
      have e2 : firstSeenAux seen
            ((sess :: rest).map (fun sess => sess.film_id)) =
          firstSeenAux seen (rest.map (fun sess => sess.film_id)) := by
        simp [firstSeenAux, hm]
      rw [e1, e2]
      exact ih acc seen s h calls
    · have hg : Client.get_film t s sess.film_id =
          ⟨t.film_by_id sess.film_id, s, 1⟩ := by
        simp [Client.get_film, h]
      have e2 : firstSeenAux seen
            ((sess :: rest).map (fun sess => sess.film_id)) =
          sess.film_id ::
            firstSeenAux (seen ++ [sess.film_id])
              (rest.map (fun sess => sess.film_id)) := by
        simp [firstSeenAux, hm]
      rw [e2]
      cases ht : t.film_by_id sess.film_id with
      | error e =>
        have e1 : SessionList.filmsAux t (sess :: rest) acc seen s calls =
            ⟨.error e, s, calls + 1⟩ := by
          simp [SessionList.filmsAux, hm, hg, ht]
        rw [e1]
        simp [fetchFilmsById, ht]
      | ok f =>
        have e1 : SessionList.filmsAux t (sess :: rest) acc seen s calls =
            SessionList.filmsAux t rest (acc ++ [f]) (seen ++ [sess.film_id]) s
              (calls + 1) := by
          simp [SessionList.filmsAux, hm, hg, ht]
        rw [e1, ih (acc ++ [f]) (seen ++ [sess.film_id]) s h (calls + 1)]
        cases hrest : fetchFilmsById t
            (firstSeenAux (seen ++ [sess.film_id])
              (rest.map (fun sess => sess.film_id))) with
        | error e => simp [fetchFilmsById, ht, hrest]
        | ok fs => simp [fetchFilmsById, ht, hrest]

/-- list_sessions never touches the film item cache. -/
theorem list_sessions_film_cache (t : Transport) (s : ClientState) :
    (Client.list_sessions t s).state.film_cache = s.film_cache := by
  cases hl : s.session_list_cache with
  | none => cases ht : t.session_list <;> simp [Client.list_sessions, hl, ht]
  | some slot =>
    cases slot with
    | some w => simp [Client.list_sessions, hl]
    | none =>
      cases ht : t.session_list with
      | error e => simp [Client.list_sessions, hl, ht]
      | ok raw =>
        cases hc : s.session_cache <;> simp [Client.list_sessions, hl, ht, hc]

/-- Counterexample for C7: claim C7 reads the inclusive date range as
including any time of day on the end date, but the code converts the end
date to midnight and keeps only sessions at or before that midnight.  On a
transport whose only session starts at one minute past midnight of day 1,
the date range from day 0 to day 1 yields no films, while the pipeline as
the claim words it (spec_films_in_date_range) yields the referenced film:
the session does fall on a day inside the inclusive range. -/
theorem C7_counterexample_end_date_excluded :
    (Client.list_films_with_sessions_in_date_range tLate stNone 0 1).res =
      .ok [] ∧
    spec_films_in_date_range tLate [sessLate] 0 1 = .ok [filmW] ∧
    (Client.list_sessions tLate stNone).res = .ok ⟨[sessLate]⟩ ∧
    inDateRangeSpec 0 1 sessLate.pre_show_start_time = true ∧
    (.ok [] : ApiResult (List Film)) ≠ .ok [filmW] := by
  refine ⟨by decide, by decide, by decide, by decide, by decide⟩

/-- C7 (amended): list-films-with-sessions-in-date-range returns exactly the
films referenced by the sessions whose pre_show_start_time lies in the
closed datetime interval from midnight at the start of the start date to
midnight at the start of the end date — any time of day strictly before
the end date, but only exactly midnight on the end date itself —
deduplicated by film id in first-seen order with no duplicates; stated
here for a client without a film cache, where each unique id is resolved
straight from the transport. -/
theorem C7_films_in_date_range_amended (t : Transport) (s : ClientState)
    (start stop : NaiveDate) (L : List Session)
    (hfc : s.film_cache = none)
    (hl : (Client.list_sessions t s).res = .ok ⟨L⟩) :
    (Client.list_films_with_sessions_in_date_range t s start stop).res =
      fetchFilmsById t (firstSeenIds
        ((SessionList.filter_by_date_range ⟨L⟩ start stop).sessions.map
          (fun sess => sess.film_id))) ∧
    (firstSeenIds ((SessionList.filter_by_date_range ⟨L⟩ start stop).sessions.map
      (fun sess => sess.film_id))).Nodup ∧
    (∀ sess ∈ (SessionList.filter_by_date_range ⟨L⟩ start stop).sessions,
      NaiveDateTime.le (NaiveDate.and_hms000 start) sess.pre_show_start_time = true ∧
      NaiveDateTime.le sess.pre_show_start_time (NaiveDate.and_hms000 stop) = true) := by
  refine ⟨?_, firstSeenAux_nodup _ [], ?_⟩
  · have hfc2 : (Client.list_sessions t s).state.film_cache = none := by
      rw [list_sessions_film_cache]
      exact hfc
    have hfilms := filmsAux_res_no_film_cache t
      (SessionList.filter_by_date_range ⟨L⟩ start stop).sessions [] []
      (Client.list_sessions t s).state hfc2 0
    simp only [Client.list_films_with_sessions_in_date_range, hl]
    rw [SessionList.films, hfilms, firstSeenIds]
    cases hres : fetchFilmsById t
        (firstSeenAux []
          ((SessionList.filter_by_date_range ⟨L⟩ start stop).sessions.map
            (fun sess => sess.film_id))) <;>
      simp [hres]
  · intro sess hs
    simp only [SessionList.filter_by_date_range, SessionList.filter_by_time_range,
      List.mem_filter, Bool.and_eq_true] at hs
    exact hs.2

/-- Witness for the amended C7: the theorem applied at the succeeding sample
transport with no caches and the one-day range around the sample session. -/
theorem C7_films_in_date_range_amended_witness :
    (Client.list_films_with_sessions_in_date_range tW stNone 0 0).res =
      fetchFilmsById tW (firstSeenIds
        ((SessionList.filter_by_date_range ⟨[sessW]⟩ 0 0).sessions.map
          (fun sess => sess.film_id))) ∧
    (firstSeenIds ((SessionList.filter_by_date_range ⟨[sessW]⟩ 0 0).sessions.map
      (fun sess => sess.film_id))).Nodup ∧
    (∀ sess ∈ (SessionList.filter_by_date_range ⟨[sessW]⟩ 0 0).sessions,
      NaiveDateTime.le (NaiveDate.and_hms000 0) sess.pre_show_start_time = true ∧
      NaiveDateTime.le sess.pre_show_start_time (NaiveDate.and_hms000 0) = true) :=
  C7_films_in_date_range_amended tW stNone 0 0 [sessW] rfl (by decide)

end Veezi
